import Mathlib

/-! modmqtt.c : event bridge, reassembly buffer and handle life cycle

A shallow embedding of `k210-freertos/mpy_support/standard_lib/network/modmqtt.c`.

* C strings and byte buffers are lists of byte values (`Bytes`); a pointer
  together with its length field is one list, the null pointer of an owned
  buffer is `none`.
* Every function that mutates `self` returns the new `self`; the calls it makes
  to the scheduler (`mp_sched_schedule`), to the external MQTT client and the
  indices it writes in the two reassembly buffers are returned as logs.
* A raised exception (`nlr_raise`, `mp_raise_ValueError`) ends the operation and
  keeps the mutations made before it.
* Lengths and offsets of an event are natural numbers: the MQTT remaining length
  is below 2^28, so the `int` arithmetic of `data_cb` does not wrap.
-/

namespace modmqtt

/-! ## Data model -/

/-- Byte strings: each element stands for one `char`/`uint8_t`. -/
abbrev Bytes := List Nat

/-- The C string a `char *` denotes: the bytes before the first NUL. -/
def cstr (s : Bytes) : Bytes := s.takeWhile (fun b => b != 0)

/-- The libc `strlen`. -/
def strlen (s : Bytes) : Nat := (cstr s).length

/-- MicroPython objects as far as this module inspects them: `mp_const_none`,
`mp_const_true`/`mp_const_false`, small ints, strings, functions, bound methods,
the handle itself (`MP_OBJ_FROM_PTR(self)`) and any other object. -/
inductive mp_obj_t where
  | none
  | bool (b : Bool)
  | int (n : Int)
  | str (s : Bytes)
  | func (ref : Nat)
  | meth (ref : Nat)
  | self_obj
  | other (ref : Nat)
deriving DecidableEq, Repr

/-- The runtime test `mp_obj_is_str`. -/
def mp_obj_is_str : mp_obj_t → Bool
  | .str _ => true
  | _ => false

/-- The runtime test `mp_obj_is_fun`. -/
def mp_obj_is_fun : mp_obj_t → Bool
  | .func _ => true
  | _ => false

/-- The runtime test `mp_obj_is_meth`. -/
def mp_obj_is_meth : mp_obj_t → Bool
  | .meth _ => true
  | _ => false

/-- The runtime truth value `mp_obj_is_true`. -/
def mp_obj_is_true : mp_obj_t → Bool
  | .none => false
  | .bool b => b
  | .int n => n != 0
  | .str s => s != []
  | _ => true

/-- Exception classes raised by this module. -/
inductive mp_exc_kind where
  | OSError
  | ValueError
  | TypeError
deriving DecidableEq, Repr

/-- A raised exception: its class and its message. -/
structure mp_exc where
  kind : mp_exc_kind
  msg : String
deriving DecidableEq, Repr

/-- Modelled from the spec: the values and capacities declared in `mqtt_client.h`,
which is not among the sources: the client states (the spec's `Initialized`,
`Connected`, ...) and the fixed capacities of the string fields. They are taken
as parameters of every operation that uses them. -/
structure mqtt_client_h where
  MQTT_STATE_UNKNOWN : Int
  MQTT_STATE_INIT : Int
  MQTT_STATE_CONNECTED : Int
  MQTT_STATE_WAIT_TIMEOUT : Int
  MQTT_MAX_HOST_LEN : Nat
  MQTT_MAX_USERNAME_LEN : Nat
  MQTT_MAX_PASSWORD_LEN : Nat
  MQTT_MAX_CLIENT_LEN : Nat
  MQTT_MAX_LWT_TOPIC : Nat
  MQTT_MAX_LWT_MSG : Nat
deriving DecidableEq, Repr

/-- Sample values for the header, used for concrete evaluations: the states in the
enumeration order of espmqtt (unknown, init, connected, wait timeout) and the
capacities it sets when nothing overrides them. -/
def espmqtt_h : mqtt_client_h :=
  { MQTT_STATE_UNKNOWN := 0, MQTT_STATE_INIT := 1, MQTT_STATE_CONNECTED := 2,
    MQTT_STATE_WAIT_TIMEOUT := 3, MQTT_MAX_HOST_LEN := 64, MQTT_MAX_USERNAME_LEN := 32,
    MQTT_MAX_PASSWORD_LEN := 65, MQTT_MAX_CLIENT_LEN := 32, MQTT_MAX_LWT_TOPIC := 32,
    MQTT_MAX_LWT_MSG := 128 }

/-- Modelled from the spec: `client->config` of the external client (declared in
`mqtt_client.h`), with the fields this module reads or writes; `user_context` is
the context slot that carries a topic from a call to its acknowledgement. -/
structure mqtt_config_storage_t where
  uri : Bytes
  host : Bytes
  port : Int
  auto_reconnect : Bool
  user_context : Option Bytes
deriving DecidableEq, Repr

/-- Modelled from the spec: `client->connect_info` of the external client
(declared in `mqtt_client.h`), with the fields this module reads or writes. -/
structure mqtt_connect_info_t where
  username : Bytes
  password : Bytes
  client_id : Bytes
  keepalive : Int
  clean_session : Bool
  will_topic : Bytes
  will_message : Bytes
  will_qos : Int
  will_retain : Int
deriving DecidableEq, Repr

/-- Modelled from the spec: the external client instance behind
`esp_mqtt_client_handle_t` (declared in `mqtt_client.h`). -/
structure esp_mqtt_client where
  state : Int
  config : mqtt_config_storage_t
  connect_info : mqtt_connect_info_t
deriving DecidableEq, Repr

/-- The handle `mqtt_obj_t`. `client = none` is the destroyed handle; a null
callback reference or buffer pointer is `none`. -/
structure mqtt_obj_t where
  client : Option esp_mqtt_client
  name : Bytes
  mpy_connected_cb : Option mp_obj_t
  mpy_disconnected_cb : Option mp_obj_t
  mpy_subscribed_cb : Option mp_obj_t
  mpy_unsubscribed_cb : Option mp_obj_t
  mpy_published_cb : Option mp_obj_t
  mpy_data_cb : Option mp_obj_t
  msgbuf : Option Bytes
  topicbuf : Option Bytes
  certbuf : Option Bytes
  client_keybuf : Option Bytes
  subs_flag : Nat
  unsubs_flag : Nat
  publish_flag : Nat
deriving DecidableEq, Repr

/-- Modelled from the spec: the event kinds of `esp_mqtt_event_id_t` (declared in
`mqtt_client.h`). -/
inductive esp_mqtt_event_id_t where
  | MQTT_EVENT_ERROR
  | MQTT_EVENT_CONNECTED
  | MQTT_EVENT_DISCONNECTED
  | MQTT_EVENT_SUBSCRIBED
  | MQTT_EVENT_UNSUBSCRIBED
  | MQTT_EVENT_PUBLISHED
  | MQTT_EVENT_DATA
deriving DecidableEq, Repr

/-- Modelled from the spec: the raw event record (declared in `mqtt_client.h`).
`data` stands for the pair `data`/`data_len`, `topic` for `topic`/`topic_len`
(a null topic is the empty list). -/
structure esp_mqtt_event_t where
  event_id : esp_mqtt_event_id_t
  data : Bytes
  total_data_len : Nat
  current_data_offset : Nat
  topic : Bytes
  type : Int
deriving DecidableEq, Repr

/-- One call `mp_sched_schedule(callback, tuple)`. -/
structure sched_call where
  callback : mp_obj_t
  tuple : List mp_obj_t
deriving DecidableEq, Repr

/-- The two reassembly buffers. -/
inductive buf_id where
  | msgbuf
  | topicbuf
deriving DecidableEq, Repr

/-- What handling one raw event yields: the handle afterwards, the scheduler
calls made, in order, and the buffer indices written, in order. -/
structure cb_result where
  self : mqtt_obj_t
  sched : List sched_call
  writes : List (buf_id × Nat)
deriving DecidableEq, Repr

/-- The outcome of the two `pvPortMalloc` calls an event may make: `none` is a
failed allocation, `some junk` a block whose byte `i` initially holds `junk i`
(the allocator does not clear memory). -/
structure heap_outcome where
  topicbuf : Option (Nat → Nat)
  msgbuf : Option (Nat → Nat)

/-! ## Memory primitives -/

/-- The allocator: a block of `size` bytes with arbitrary initial content, or null. -/
def pvPortMalloc (outcome : Option (Nat → Nat)) (size : Nat) : Option Bytes :=
  outcome.map (fun junk => (List.range size).map junk)

/-- The bytes of `buf` after `memcpy(buf + off, src, src.length)`; bytes that fall
outside the block are not part of it. -/
def memcpy (buf : Bytes) (off : Nat) (src : Bytes) : Bytes :=
  (buf.take off ++ src ++ buf.drop (off + src.length)).take buf.length

/-- The indices `memcpy(buf + off, src, n)` writes in buffer `b`. -/
def memcpy_writes (b : buf_id) (off n : Nat) : List (buf_id × Nat) :=
  (List.range n).map (fun i => (b, off + i))

/-- The string object `mp_obj_new_str(buf, len)` reads from a buffer. -/
def mp_obj_new_str (buf : Bytes) (len : Nat) : mp_obj_t :=
  .str (buf.take len)

/-! ## Event translation -/

/-- The C function `connected_cb`. -/
def connected_cb (self : mqtt_obj_t) : List sched_call :=
  match self.mpy_connected_cb with
  | some cb => [⟨cb, [.self_obj, mp_obj_new_str self.name (strlen self.name)]⟩]
  | none => []

/-- The C function `disconnected_cb`. -/
def disconnected_cb (self : mqtt_obj_t) : List sched_call :=
  match self.mpy_disconnected_cb with
  | some cb => [⟨cb, [.self_obj, mp_obj_new_str self.name (strlen self.name)]⟩]
  | none => []

/-- The third tuple entry of the acknowledgement callbacks: the topic of the
context slot, or the marker `"??"` when the slot is null. -/
def topic_or_unknown (topic : Option Bytes) : mp_obj_t :=
  match topic with
  | some t => mp_obj_new_str t (strlen t)
  | none => mp_obj_new_str [63, 63] 2

/-- The C function `subscribed_cb`. -/
def subscribed_cb (self : mqtt_obj_t) (topic : Option Bytes) : List sched_call :=
  match self.mpy_subscribed_cb with
  | some cb =>
    [⟨cb, [.self_obj, mp_obj_new_str self.name (strlen self.name), topic_or_unknown topic]⟩]
  | none => []

/-- The C function `unsubscribed_cb`. -/
def unsubscribed_cb (self : mqtt_obj_t) (topic : Option Bytes) : List sched_call :=
  match self.mpy_unsubscribed_cb with
  | some cb =>
    [⟨cb, [.self_obj, mp_obj_new_str self.name (strlen self.name), topic_or_unknown topic]⟩]
  | none => []

/-- The C function `published_cb`. -/
def published_cb (self : mqtt_obj_t) (topic : Option Bytes) (type : Int) : List sched_call :=
  match self.mpy_published_cb with
  | some cb =>
    [⟨cb, [.self_obj, mp_obj_new_str self.name (strlen self.name), topic_or_unknown topic,
           .int type]⟩]
  | none => []

/-- The C function `data_cb`: the reassembly of a chunked message. -/
def data_cb (self : mqtt_obj_t) (event : esp_mqtt_event_t) (heap : heap_outcome) : cb_result :=
  match self.mpy_data_cb with
  | none => ⟨self, [], []⟩
  | some cb =>
    if event.current_data_offset = 0 then
      -- first block of data: drop whatever was being reassembled
      let self := { self with msgbuf := none, topicbuf := none }
      if event.data.length < event.total_data_len then
        -- more data will follow
        match pvPortMalloc heap.topicbuf (event.topic.length + 1) with
        | some tb =>
          let tb := (memcpy tb 0 event.topic).set event.topic.length 0
          let wt := memcpy_writes .topicbuf 0 event.topic.length
            ++ [(buf_id.topicbuf, event.topic.length)]
          let buf_len := event.total_data_len + 1
          match pvPortMalloc heap.msgbuf (buf_len + 1) with
          | some mb =>
            let mb := (memcpy mb 0 event.data).set event.data.length 0
            let wm := memcpy_writes .msgbuf 0 event.data.length
              ++ [(buf_id.msgbuf, event.data.length)]
            ⟨{ self with topicbuf := some tb, msgbuf := some mb }, [], wt ++ wm⟩
          | none => ⟨{ self with msgbuf := none, topicbuf := none }, [], wt⟩
        | none => ⟨{ self with topicbuf := none }, [], []⟩
      else
        -- all data received
        ⟨self,
         [⟨cb, [.self_obj, mp_obj_new_str self.name (strlen self.name),
                mp_obj_new_str event.topic event.topic.length,
                mp_obj_new_str event.data event.data.length]⟩],
         []⟩
    else
      match self.topicbuf, self.msgbuf with
      | some tb, some mb =>
        -- more payload data arrived, add to buffer
        let new_len := event.current_data_offset + event.data.length
        let mb := (memcpy mb event.current_data_offset event.data).set new_len 0
        let wm := memcpy_writes .msgbuf event.current_data_offset event.data.length
          ++ [(buf_id.msgbuf, new_len)]
        if new_len ≥ event.total_data_len then
          ⟨{ self with msgbuf := none, topicbuf := none },
           [⟨cb, [.self_obj, mp_obj_new_str self.name (strlen self.name),
                  mp_obj_new_str tb (strlen tb),
                  mp_obj_new_str mb event.total_data_len]⟩],
           wm⟩
        else
          ⟨{ self with msgbuf := some mb }, [], wm⟩
      | _, _ =>
        -- no data buffers allocated
        ⟨{ self with msgbuf := none, topicbuf := none }, [], []⟩

/-- The C function `mqtt_event_handler`; `client` is `event->client` and
`mpy_client` is `client->mpy_mqtt_obj`. -/
def mqtt_event_handler (client : esp_mqtt_client) (mpy_client : mqtt_obj_t)
    (event : esp_mqtt_event_t) (heap : heap_outcome) : cb_result :=
  let topic : Option Bytes := client.config.user_context
  match event.event_id with
  | .MQTT_EVENT_CONNECTED => ⟨mpy_client, connected_cb mpy_client, []⟩
  | .MQTT_EVENT_DISCONNECTED => ⟨mpy_client, disconnected_cb mpy_client, []⟩
  | .MQTT_EVENT_SUBSCRIBED =>
    ⟨{ mpy_client with subs_flag := 1 }, subscribed_cb mpy_client topic, []⟩
  | .MQTT_EVENT_UNSUBSCRIBED =>
    ⟨{ mpy_client with unsubs_flag := 1 }, unsubscribed_cb mpy_client topic, []⟩
  | .MQTT_EVENT_PUBLISHED =>
    ⟨{ mpy_client with publish_flag := 1 }, published_cb mpy_client topic event.type, []⟩
  | .MQTT_EVENT_DATA => data_cb mpy_client event heap
  | .MQTT_EVENT_ERROR => ⟨mpy_client, [], []⟩

/-! ## Operations of the handle -/

/-- The bytes of a string literal of the source. -/
def lit (s : String) : Bytes := s.toList.map Char.toNat

/-- A call this module makes to the external client or to the kernel. -/
inductive ext_call where
  | esp_mqtt_client_subscribe (topic : Bytes) (qos : Int)
  | esp_mqtt_client_unsubscribe (topic : Bytes)
  | esp_mqtt_client_publish (topic : Bytes) (msg : Bytes) (len : Nat) (qos : Int) (retain : Int)
  | esp_mqtt_client_stop
  | esp_mqtt_client_start
  | esp_mqtt_client_destroy
  | vTaskDelay
deriving DecidableEq, Repr

/-- How an operation ends: it returns an object or raises. -/
inductive outcome where
  | returned (v : mp_obj_t)
  | raised (e : mp_exc)
deriving DecidableEq, Repr

/-- What an operation yields: the handle afterwards, how it ended and the external
calls it made, in order. -/
structure op_result where
  self : mqtt_obj_t
  ret : outcome
  calls : List ext_call
deriving DecidableEq, Repr

/-- Runtime primitive `mp_obj_str_get_str`: the bytes of a string object, a
`TypeError` for any other object. -/
def mp_obj_str_get_str : mp_obj_t → Except mp_exc Bytes
  | .str s => .ok s
  | _ => .error ⟨.TypeError, "can't convert to str"⟩

/-- Runtime primitive `mp_obj_str_get_data`: the bytes of a string object and
their number, a `TypeError` for any other object. -/
def mp_obj_str_get_data : mp_obj_t → Except mp_exc (Bytes × Nat)
  | .str s => .ok (s, s.length)
  | _ => .error ⟨.TypeError, "can't convert to str"⟩

/-- Runtime primitive `mp_obj_get_int`: the value of an int or bool object as an
`mp_int_t` (the int object is one whose value fits the machine word), a
`TypeError` for any other object. -/
def mp_obj_get_int : mp_obj_t → Except mp_exc Int
  | .int n => .ok n
  | .bool b => .ok (if b then 1 else 0)
  | _ => .error ⟨.TypeError, "can't convert to int"⟩

/-- The C conversion of an `mp_int_t` value to the 32-bit `int` it is assigned to
(`int qos = mp_obj_get_int(..)`): the value modulo 2^32, taken in the range of a
two's complement `int`. -/
def to_int (n : Int) : Int := (n + 2147483648) % 4294967296 - 2147483648

/-- The C function `checkClient`: raises on a destroyed handle, else the state of
the client. -/
def checkClient (mqtt_obj : mqtt_obj_t) : Except mp_exc Int :=
  match mqtt_obj.client with
  | none => .error ⟨.OSError, "Mqtt client destroyed"⟩
  | some client => .ok client.state

/-- The handle with `client->config->user_context` set to `ctx`. -/
def set_user_context (self : mqtt_obj_t) (ctx : Option Bytes) : mqtt_obj_t :=
  match self.client with
  | some c => { self with client := some { c with config := { c.config with user_context := ctx } } }
  | none => self

/-- The C function `mqtt_op_subscribe`, called with `n_args = 2 + opt.length`
arguments `(self, topic_in, opt...)`; `res` is what `esp_mqtt_client_subscribe`
returns when it is called. -/
def mqtt_op_subscribe (H : mqtt_client_h) (self : mqtt_obj_t) (topic_in : mp_obj_t)
    (opt : List mp_obj_t) (res : Int) : op_result :=
  match checkClient self with
  | .error e => ⟨self, .raised e, []⟩
  | .ok state =>
    if state ≠ H.MQTT_STATE_CONNECTED then ⟨self, .returned (.bool false), []⟩
    else
      match mp_obj_str_get_str topic_in with
      | .error e => ⟨self, .raised e, []⟩
      | .ok topic =>
        let qos : Except mp_exc Int :=
          match opt with
          | [q] =>
            match mp_obj_get_int q with
            | .error e => .error e
            | .ok v =>
              if to_int v < 0 ∨ to_int v > 2 then .error ⟨.ValueError, "Wrong QoS value"⟩
              else .ok (to_int v)
          | _ => .ok 0
        match qos with
        | .error e => ⟨self, .raised e, []⟩
        | .ok qos =>
          let self := set_user_context { self with subs_flag := 0 } (some topic)
          let calls := [ext_call.esp_mqtt_client_subscribe topic qos]
          if res < 0 then ⟨set_user_context self none, .returned (.bool false), calls⟩
          else ⟨self, .returned (.bool true), calls⟩

/-- The C function `mqtt_op_unsubscribe`; `res` is what
`esp_mqtt_client_unsubscribe` returns when it is called. -/
def mqtt_op_unsubscribe (H : mqtt_client_h) (self : mqtt_obj_t) (topic_in : mp_obj_t)
    (res : Int) : op_result :=
  match checkClient self with
  | .error e => ⟨self, .raised e, []⟩
  | .ok state =>
    if state ≠ H.MQTT_STATE_CONNECTED then ⟨self, .returned (.bool false), []⟩
    else
      match mp_obj_str_get_str topic_in with
      | .error e => ⟨self, .raised e, []⟩
      | .ok topic =>
        let self := set_user_context { self with unsubs_flag := 0 } (some topic)
        let calls := [ext_call.esp_mqtt_client_unsubscribe topic]
        if res < 0 then ⟨set_user_context self none, .returned (.bool false), calls⟩
        else ⟨self, .returned (.bool true), calls⟩

/-- The C function `mqtt_op_publish`, called with `n_args = 3 + opt.length`
arguments `(self, topic_in, msg_in, opt...)`; `res` is what
`esp_mqtt_client_publish` returns when it is called. -/
def mqtt_op_publish (H : mqtt_client_h) (self : mqtt_obj_t) (topic_in msg_in : mp_obj_t)
    (opt : List mp_obj_t) (res : Int) : op_result :=
  match checkClient self with
  | .error e => ⟨self, .raised e, []⟩
  | .ok state =>
    if state ≠ H.MQTT_STATE_CONNECTED then ⟨self, .returned (.bool false), []⟩
    else
      match mp_obj_str_get_str topic_in with
      | .error e => ⟨self, .raised e, []⟩
      | .ok topic =>
        match mp_obj_str_get_data msg_in with
        | .error e => ⟨self, .raised e, []⟩
        | .ok (msg, len) =>
          let qos : Except mp_exc Int :=
            match opt with
            | [q] =>
              match mp_obj_get_int q with
              | .error e => .error e
              | .ok v =>
                if to_int v < 0 ∨ to_int v > 2 then .error ⟨.ValueError, "Wrong QoS value"⟩
                else .ok (to_int v)
            | _ => .ok 0
          match qos with
          | .error e => ⟨self, .raised e, []⟩
          | .ok qos =>
            let retain : Int :=
              match opt with
              | [_, r] => if mp_obj_is_true r then 1 else 0
              | _ => 0
            let self := set_user_context { self with publish_flag := 0 } (some topic)
            let calls := [ext_call.esp_mqtt_client_publish topic msg len qos retain]
            if res < 0 then ⟨set_user_context self none, .returned (.bool false), calls⟩
            else ⟨self, .returned (.bool true), calls⟩

/-- The C function `mqtt_op_status`: the returned tuple `(code, label)`. -/
def mqtt_op_status (H : mqtt_client_h) (self : mqtt_obj_t) : List mp_obj_t :=
  match self.client with
  | none => [.int (-1), .str (lit "Destroyed")]
  | some client =>
    let sstat :=
      if client.state = H.MQTT_STATE_CONNECTED then lit "Connected"
      else if client.state = H.MQTT_STATE_INIT then lit "Initialized"
      else if client.state = H.MQTT_STATE_WAIT_TIMEOUT then lit "Wait timeout"
      else if client.state = H.MQTT_STATE_UNKNOWN then lit "Unknown"
      else lit "Error"
    [.int client.state, .str sstat]

/-- The wait loop of `mqtt_op_stop`:
`while ((status < 20) && ((xEventGroupGetBits(..) & 1) == 0)) vTaskDelay(..);`.
`bits i` is what the `i`-th poll of the status bits reads; the result is the
number of delays made before the loop ends, `none` when `fuel` polls did not end
it. The body of the loop does not change `status`. -/
def stop_wait (bits : Nat → Nat) (status : Nat) : Nat → Nat → Option Nat
  | 0, _ => none
  | fuel + 1, i =>
    if status < 20 ∧ bits i % 2 = 0 then stop_wait bits status fuel (i + 1) else some i

/-- The C function `mqtt_op_stop`; `none` when the wait loop did not end within
`fuel` polls. -/
def mqtt_op_stop (H : mqtt_client_h) (self : mqtt_obj_t) (bits : Nat → Nat) (fuel : Nat) :
    Option op_result :=
  match self.client with
  | some client =>
    if client.state ≥ H.MQTT_STATE_INIT then
      match stop_wait bits 0 fuel 0 with
      | some delays =>
        some ⟨self, .returned .none,
          ext_call.esp_mqtt_client_stop :: List.replicate delays ext_call.vTaskDelay⟩
      | none => none
    else some ⟨self, .returned .none, []⟩
  | none => some ⟨self, .returned .none, []⟩

/-- The C function `mqtt_op_start`; `res` is what `esp_mqtt_client_start` returns
when it is called. -/
def mqtt_op_start (H : mqtt_client_h) (self : mqtt_obj_t) (res : Int) : op_result :=
  match self.client with
  | some client =>
    if client.state < H.MQTT_STATE_INIT then
      if client.connect_info.clean_session then
        ⟨self, .raised ⟨.TypeError, "Client not in persistent session, free and create again"⟩, []⟩
      else if res ≠ 0 then
        ⟨self, .raised ⟨.TypeError, "Error starting client"⟩, [ext_call.esp_mqtt_client_start]⟩
      else ⟨self, .returned .none, [ext_call.esp_mqtt_client_start]⟩
    else ⟨self, .returned .none, []⟩
  | none => ⟨self, .returned .none, []⟩

/-- The C function `mqtt_op_free`. -/
def mqtt_op_free (self : mqtt_obj_t) : op_result :=
  match self.client with
  | some _ =>
    ⟨{ self with
        mpy_data_cb := none, mpy_connected_cb := none, mpy_disconnected_cb := none,
        mpy_subscribed_cb := none, mpy_unsubscribed_cb := none, mpy_published_cb := none,
        client := none, msgbuf := none, topicbuf := none, certbuf := none,
        client_keybuf := none },
     .returned (.bool true), [ext_call.esp_mqtt_client_destroy]⟩
  | none => ⟨self, .returned (.bool false), []⟩

/-- The argument values of `mqtt_op_config` after `mp_arg_parse_all`; an argument
that is not passed has the value given in `mqtt_config_allowed_args`. -/
structure config_args where
  server : mp_obj_t := .none
  user : mp_obj_t := .none
  password : mp_obj_t := .none
  port : Int := -1
  autoreconnect : Int := -1
  clientid : mp_obj_t := .none
  cleansession : Int := -1
  keepalive : Int := -1
  lwt_topic : mp_obj_t := .none
  lwt_msg : mp_obj_t := .none
  lwt_qos : Int := 0
  lwt_retain : Int := 0
  data_cb : mp_obj_t := .none
  connected_cb : mp_obj_t := .none
  disconnected_cb : mp_obj_t := .none
  subscribed_cb : mp_obj_t := .none
  unsubscribed_cb : mp_obj_t := .none
  published_cb : mp_obj_t := .none
deriving DecidableEq, Repr

/-- The test of `mqtt_op_config` for a connection-affecting argument. -/
def has_conn_arg (args : config_args) : Bool :=
  mp_obj_is_str args.server || decide (args.port > 0) || mp_obj_is_str args.user ||
  mp_obj_is_str args.password || mp_obj_is_str args.clientid ||
  decide (args.autoreconnect ≥ 0) || decide (args.keepalive > 0) ||
  decide (args.cleansession ≥ 0) || mp_obj_is_str args.lwt_topic

/-- One group of assignments to the client inside `mqtt_op_config`: the client
afterwards, or the client as far as assigned together with the exception raised. -/
abbrev cfg_step := esp_mqtt_client → Except (esp_mqtt_client × mp_exc) esp_mqtt_client

/-- The server argument of `mqtt_op_config`. -/
def cfg_uri (H : mqtt_client_h) (args : config_args) : cfg_step := fun c =>
  match args.server with
  | .str tstr =>
    if strlen tstr ≥ H.MQTT_MAX_HOST_LEN then .error (c, ⟨.ValueError, "URI too long"⟩)
    else .ok { c with config := { c.config with uri := cstr tstr } }
  | _ => .ok c

/-- The port argument of `mqtt_op_config`. -/
def cfg_port (args : config_args) : cfg_step := fun c =>
  if args.port > 0 then .ok { c with config := { c.config with port := args.port } } else .ok c

/-- The user argument of `mqtt_op_config`. -/
def cfg_user (H : mqtt_client_h) (args : config_args) : cfg_step := fun c =>
  match args.user with
  | .str tstr =>
    if strlen tstr ≥ H.MQTT_MAX_USERNAME_LEN then
      .error (c, ⟨.ValueError, "User name too long"⟩)
    else .ok { c with connect_info := { c.connect_info with username := cstr tstr } }
  | _ => .ok c

/-- The password argument of `mqtt_op_config`. -/
def cfg_pass (H : mqtt_client_h) (args : config_args) : cfg_step := fun c =>
  match args.password with
  | .str tstr =>
    if strlen tstr ≥ H.MQTT_MAX_PASSWORD_LEN then
      .error (c, ⟨.ValueError, "Password too long"⟩)
    else .ok { c with connect_info := { c.connect_info with password := cstr tstr } }
  | _ => .ok c

/-- The client ID argument of `mqtt_op_config`. -/
def cfg_clientid (H : mqtt_client_h) (args : config_args) : cfg_step := fun c =>
  match args.clientid with
  | .str tstr =>
    if strlen tstr ≥ H.MQTT_MAX_CLIENT_LEN then
      .error (c, ⟨.ValueError, "Client ID too long"⟩)
    else .ok { c with connect_info := { c.connect_info with client_id := cstr tstr } }
  | _ => .ok { c with connect_info := { c.connect_info with client_id := lit "mpy_mqtt_client" } }

/-- The autoreconnect, keepalive and cleansession arguments of `mqtt_op_config`. -/
def cfg_flags (args : config_args) : cfg_step := fun c =>
  let c := if args.autoreconnect ≥ 0 then
      { c with config := { c.config with auto_reconnect := decide (args.autoreconnect ≠ 0) } }
    else c
  let c := if args.keepalive > 0 then
      { c with connect_info := { c.connect_info with keepalive := args.keepalive } }
    else c
  let c := if args.cleansession ≥ 0 then
      { c with connect_info := { c.connect_info with clean_session := decide (args.cleansession ≠ 0) } }
    else c
  .ok c

/-- The last-will arguments of `mqtt_op_config`. The message, when given, is
printed into `will_topic`, as in the source. -/
def cfg_lwt (H : mqtt_client_h) (args : config_args) : cfg_step := fun c =>
  match args.lwt_topic with
  | .str tstr =>
    if strlen tstr ≥ H.MQTT_MAX_LWT_TOPIC then
      .error (c, ⟨.ValueError, "LWT topic too long"⟩)
    else
      let c := { c with connect_info := { c.connect_info with will_topic := cstr tstr } }
      let r : Except (esp_mqtt_client × mp_exc) esp_mqtt_client :=
        match args.lwt_msg with
        | .str mstr =>
          if strlen mstr ≥ H.MQTT_MAX_LWT_MSG then
            .error (c, ⟨.ValueError, "LWT message too long"⟩)
          else .ok { c with connect_info := { c.connect_info with will_topic := cstr mstr } }
        | _ => .ok c
      match r with
      | .error e => .error e
      | .ok c =>
        let c := if args.lwt_qos ≥ 0 then
            { c with connect_info := { c.connect_info with will_qos := args.lwt_qos } }
          else c
        let c := if args.lwt_retain ≥ 0 then
            { c with connect_info := { c.connect_info with will_retain := args.lwt_retain } }
          else c
        .ok c
  | _ => .ok c

/-- The block of `mqtt_op_config` guarded by
`(has_conn_arg) && (self->client->state < MQTT_STATE_CONNECTED)`. -/
def cfg_conn (H : mqtt_client_h) (args : config_args) : cfg_step := fun c =>
  cfg_uri H args c >>= cfg_port args >>= cfg_user H args >>= cfg_pass H args >>=
    cfg_clientid H args >>= cfg_flags args >>= cfg_lwt H args

/-- One callback argument of `mqtt_op_config`: a function or bound method is
stored, `mp_const_false` clears the reference, anything else leaves it. -/
def cfg_callback (old : Option mp_obj_t) (arg : mp_obj_t) : Option mp_obj_t :=
  if mp_obj_is_fun arg || mp_obj_is_meth arg then some arg
  else if arg = .bool false then none
  else old

/-- The callback part of `mqtt_op_config`. -/
def cfg_callbacks (self : mqtt_obj_t) (args : config_args) : mqtt_obj_t :=
  { self with
    mpy_data_cb := cfg_callback self.mpy_data_cb args.data_cb,
    mpy_connected_cb := cfg_callback self.mpy_connected_cb args.connected_cb,
    mpy_disconnected_cb := cfg_callback self.mpy_disconnected_cb args.disconnected_cb,
    mpy_subscribed_cb := cfg_callback self.mpy_subscribed_cb args.subscribed_cb,
    mpy_unsubscribed_cb := cfg_callback self.mpy_unsubscribed_cb args.unsubscribed_cb,
    mpy_published_cb := cfg_callback self.mpy_published_cb args.published_cb }

/-- The C function `mqtt_op_config`. -/
def mqtt_op_config (H : mqtt_client_h) (self : mqtt_obj_t) (args : config_args) : op_result :=
  match self.client with
  | none => ⟨self, .raised ⟨.ValueError, "Destroyed"⟩, []⟩
  | some client =>
    if has_conn_arg args ∧ client.state < H.MQTT_STATE_CONNECTED then
      -- not started, we can change all parameters
      match cfg_conn H args client with
      | .error (c, e) => ⟨{ self with client := some c }, .raised e, []⟩
      | .ok c => ⟨cfg_callbacks { self with client := some c } args, .returned .none, []⟩
    else ⟨cfg_callbacks self args, .returned .none, []⟩

/-! ## Construction -/

/-- The capacity of the `name` field of the handle. -/
def MQTT_MAX_TASKNAME_LEN : Nat := 16

/-- Modelled from the spec: the configuration record `esp_mqtt_client_config_t`
handed to the external client at creation (declared in `mqtt_client.h`), with the
fields `mqtt_make_new` sets; the zero-initialised record has empty strings, zero
numbers, cleared flags and null pointers. The `event_handle` field is always
`mqtt_event_handler`. -/
structure esp_mqtt_client_config_t where
  task_prio : Int := 0
  port : Int := 0
  host : Bytes := []
  uri : Bytes := []
  username : Bytes := []
  password : Bytes := []
  client_id : Bytes := []
  disable_auto_reconnect : Bool := false
  keepalive : Int := 0
  disable_clean_session : Bool := false
  lwt_topic : Bytes := []
  lwt_msg : Bytes := []
  lwt_qos : Int := 0
  lwt_retain : Int := 0
  cert_pem : Option Bytes := none
  client_cert_pem : Option Bytes := none
  client_key_pem : Option Bytes := none
deriving DecidableEq, Repr

/-- The argument values of `mqtt_make_new` after `mp_arg_parse_all_kw_array`; an
argument that is not passed has the value given in `mqtt_init_allowed_args` (for
`keepalive` that is the header value `MQTT_KEEPALIVE_TICK`). -/
structure new_args where
  name : mp_obj_t
  server : mp_obj_t
  user : mp_obj_t := .none
  password : mp_obj_t := .none
  port : Int := -1
  autoreconnect : Int := 0
  clientid : mp_obj_t := .none
  cleansession : Int := 0
  keepalive : Int
  cert : mp_obj_t := .none
  client_key : mp_obj_t := .none
  lwt_topic : mp_obj_t := .none
  lwt_msg : mp_obj_t := .none
  lwt_qos : Int := 0
  lwt_retain : Int := 0
  data_cb : mp_obj_t := .none
  connected_cb : mp_obj_t := .none
  disconnected_cb : mp_obj_t := .none
  subscribed_cb : mp_obj_t := .none
  unsubscribed_cb : mp_obj_t := .none
  published_cb : mp_obj_t := .none
deriving DecidableEq, Repr

/-- What reading one certificate file yields: whether `mp_vfs_open` gives a file,
the two `lseek` results, whether the buffer is allocated and the result of the
read. -/
structure file_outcome where
  opened : Bool
  fsize : Int
  at_start : Int
  alloc_ok : Bool
  read : Int
deriving DecidableEq, Repr

/-- What `mqtt_make_new` takes from outside this module: the task priority of
`mpconfigport.h`, the result of `http_parser_parse_url` on a string (0 when it
parses), the value of `random_at_most(9990000)`, the files of the file system and
the external `esp_mqtt_client_init` (null is `none`). -/
structure new_env where
  MICROPY_TASK_PRIORITY : Int
  http_parser_parse_url : Bytes → Int
  random_at_most : Nat
  files : Bytes → file_outcome
  esp_mqtt_client_init : esp_mqtt_client_config_t → Option esp_mqtt_client

/-- The C function `cert_to_buf`: the exception it raises, if any. Its buffer
argument is passed by value, so the pointer of the caller is not changed. -/
def cert_to_buf (f : file_outcome) : Option mp_exc :=
  if f.opened then
    if f.fsize ≤ 0 ∨ f.at_start ≠ 0 then some ⟨.ValueError, "Error getting file size"⟩
    else if ¬ f.alloc_ok then some ⟨.ValueError, "Error allocating certification buffer"⟩
    else if f.read = f.fsize then none
    else some ⟨.ValueError, "Error reading certificate file"⟩
  else some ⟨.ValueError, "Error opening certificate file"⟩

/-- The eight lower-case hexadecimal digits printed by `%08x`. -/
def hex8 (n : Nat) : Bytes :=
  let ds := (Nat.toDigits 16 (n % 2 ^ 32)).map Char.toNat
  List.replicate (8 - ds.length) 48 ++ ds

/-- One group of assignments to the local `mqtt_cfg` of `mqtt_make_new`: the
record afterwards, or the exception raised. -/
abbrev new_step := esp_mqtt_client_config_t → Except mp_exc esp_mqtt_client_config_t

/-- The name argument of `mqtt_make_new`: the content of `self->name`. -/
def new_name (args : new_args) : Except mp_exc Bytes :=
  match mp_obj_str_get_str args.name with
  | .error e => .error e
  | .ok tstr =>
    if strlen tstr ≥ MQTT_MAX_TASKNAME_LEN then .error ⟨.ValueError, "Name too long"⟩
    else .ok (cstr tstr)

/-- The port argument of `mqtt_make_new`. -/
def new_port (args : new_args) : new_step := fun cfg =>
  if args.port > 0 then .ok { cfg with port := args.port } else .ok cfg

/-- The server argument of `mqtt_make_new`: a string the URL parser rejects is
kept as the host, a string it accepts as the URI. -/
def new_server (H : mqtt_client_h) (env : new_env) (args : new_args) : new_step := fun cfg =>
  match mp_obj_str_get_str args.server with
  | .error e => .error e
  | .ok tstr =>
    if strlen tstr ≥ H.MQTT_MAX_HOST_LEN then .error ⟨.ValueError, "URI too long"⟩
    else
      let parser_status := env.http_parser_parse_url (cstr tstr)
      if parser_status ≠ 0 then .ok { cfg with host := cstr tstr }
      else .ok { cfg with uri := cstr tstr }

/-- The user argument of `mqtt_make_new`. -/
def new_user (H : mqtt_client_h) (args : new_args) : new_step := fun cfg =>
  match args.user with
  | .str tstr =>
    if strlen tstr ≥ H.MQTT_MAX_USERNAME_LEN then .error ⟨.ValueError, "User name too long"⟩
    else .ok { cfg with username := cstr tstr }
  | _ => .ok cfg

/-- The password argument of `mqtt_make_new`. -/
def new_pass (H : mqtt_client_h) (args : new_args) : new_step := fun cfg =>
  match args.password with
  | .str tstr =>
    if strlen tstr ≥ H.MQTT_MAX_PASSWORD_LEN then .error ⟨.ValueError, "Password too long"⟩
    else .ok { cfg with password := cstr tstr }
  | _ => .ok cfg

/-- The client ID argument of `mqtt_make_new`; without one a random ID is
generated. -/
def new_clientid (H : mqtt_client_h) (env : new_env) (args : new_args) : new_step := fun cfg =>
  match args.clientid with
  | .str tstr =>
    if strlen tstr ≥ H.MQTT_MAX_CLIENT_LEN then .error ⟨.ValueError, "Client ID too long"⟩
    else .ok { cfg with client_id := cstr tstr }
  | _ =>
    let rand_id := 10000 + env.random_at_most
    .ok { cfg with client_id := lit "mpy_mqtt_id_" ++ hex8 rand_id }

/-- The autoreconnect, keepalive and cleansession arguments of `mqtt_make_new`. -/
def new_flags (args : new_args) : new_step := fun cfg =>
  .ok { cfg with
    disable_auto_reconnect := decide (args.autoreconnect = 0),
    keepalive := args.keepalive,
    disable_clean_session := decide (args.cleansession = 0) }

/-- The last-will arguments of `mqtt_make_new`. -/
def new_lwt (H : mqtt_client_h) (args : new_args) : new_step := fun cfg =>
  match args.lwt_topic with
  | .str tstr =>
    if strlen tstr ≥ H.MQTT_MAX_LWT_TOPIC then .error ⟨.ValueError, "LWT topic too long"⟩
    else
      let cfg := { cfg with lwt_topic := cstr tstr }
      let r : Except mp_exc esp_mqtt_client_config_t :=
        match args.lwt_msg with
        | .str mstr =>
          if strlen mstr ≥ H.MQTT_MAX_LWT_MSG then
            .error ⟨.ValueError, "LWT message too long"⟩
          else .ok { cfg with lwt_msg := cstr mstr }
        | _ => .ok { cfg with lwt_msg := lit "offline" }
      match r with
      | .error e => .error e
      | .ok cfg => .ok { cfg with lwt_qos := args.lwt_qos, lwt_retain := args.lwt_retain }
  | _ => .ok cfg

/-- The certificate arguments of `mqtt_make_new`. The pointers stored in the
record are `self->certbuf` and `self->client_keybuf`, which `cert_to_buf` leaves
null. -/
def new_certs (env : new_env) (args : new_args) : new_step := fun cfg =>
  match args.cert, args.client_key with
  | .str cert, .str key =>
    match cert_to_buf (env.files (cstr cert)) with
    | some e => .error e
    | none =>
      match cert_to_buf (env.files (cstr key)) with
      | some e => .error e
      | none => .ok { cfg with client_cert_pem := none, client_key_pem := none }
  | .str cert, _ =>
    match cert_to_buf (env.files (cstr cert)) with
    | some e => .error e
    | none => .ok { cfg with cert_pem := none }
  | _, _ => .ok cfg

/-- The record `mqtt_cfg` that `mqtt_make_new` builds from its arguments. -/
def new_cfg (H : mqtt_client_h) (env : new_env) (args : new_args) :
    Except mp_exc esp_mqtt_client_config_t :=
  new_port args { task_prio := env.MICROPY_TASK_PRIORITY + 1 } >>= new_server H env args >>=
    new_user H args >>= new_pass H args >>= new_clientid H env args >>= new_flags args >>=
    new_lwt H args >>= new_certs env args

/-- One callback argument of `mqtt_make_new`: a function or bound method is stored,
anything else leaves the reference null. -/
def new_callback (arg : mp_obj_t) : Option mp_obj_t :=
  if mp_obj_is_fun arg || mp_obj_is_meth arg then some arg else none

/-- How `mqtt_make_new` ends: it returns the new handle or raises. -/
inductive new_outcome where
  | created (self : mqtt_obj_t)
  | raised (e : mp_exc)
deriving DecidableEq, Repr

/-- What `mqtt_make_new` yields: how it ended and the records it passed to
`esp_mqtt_client_init`, in order. -/
structure new_result where
  ret : new_outcome
  inits : List esp_mqtt_client_config_t
deriving DecidableEq, Repr

/-- The C function `mqtt_make_new`. -/
def mqtt_make_new (H : mqtt_client_h) (env : new_env) (args : new_args) : new_result :=
  match new_name args with
  | .error e => ⟨.raised e, []⟩
  | .ok name =>
    match new_cfg H env args with
    | .error e => ⟨.raised e, []⟩
    | .ok mqtt_cfg =>
      match env.esp_mqtt_client_init mqtt_cfg with
      | none => ⟨.raised ⟨.ValueError, "Error initializing mqtt client"⟩, [mqtt_cfg]⟩
      | some client =>
        ⟨.created
          { client := some client, name := name,
            mpy_connected_cb := new_callback args.connected_cb,
            mpy_disconnected_cb := new_callback args.disconnected_cb,
            mpy_subscribed_cb := new_callback args.subscribed_cb,
            mpy_unsubscribed_cb := new_callback args.unsubscribed_cb,
            mpy_published_cb := new_callback args.published_cb,
            mpy_data_cb := new_callback args.data_cb,
            msgbuf := none, topicbuf := none, certbuf := none, client_keybuf := none,
            subs_flag := 0, unsubs_flag := 0, publish_flag := 0 },
         [mqtt_cfg]⟩

/-! ## Runs: sequences of events and calls -/

/-- Handling a sequence of data events with `data_cb`, each with the outcome of
its allocations: the handle afterwards and all scheduler calls, in order. -/
def run_data_cb (self : mqtt_obj_t) :
    List (esp_mqtt_event_t × heap_outcome) → mqtt_obj_t × List sched_call
  | [] => (self, [])
  | (event, heap) :: rest =>
    let r := data_cb self event heap
    let rs := run_data_cb r.self rest
    (rs.1, r.sched ++ rs.2)

/-- The events deliver a message of `total` bytes in order from offset `off`:
every event announces `total` and starts where the previous one ended. -/
def in_order (total : Nat) : Nat → List esp_mqtt_event_t → Prop
  | _, [] => True
  | off, event :: rest =>
    event.current_data_offset = off ∧ event.total_data_len = total ∧
      in_order total (off + event.data.length) rest

instance in_order_decidable (total : Nat) :
    ∀ (off : Nat) (events : List esp_mqtt_event_t), Decidable (in_order total off events)
  | _, [] => isTrue trivial
  | off, event :: rest =>
    have := in_order_decidable total (off + event.data.length) rest
    inferInstanceAs (Decidable (event.current_data_offset = off ∧
      event.total_data_len = total ∧ in_order total (off + event.data.length) rest))

/-- The payload bytes the events carry, concatenated in order. -/
def chunks_data : List esp_mqtt_event_t → Bytes
  | [] => []
  | event :: rest => event.data ++ chunks_data rest

/-- Both allocations of the event succeed. -/
def allocs_ok (heap : heap_outcome) : Prop :=
  heap.topicbuf.isSome = true ∧ heap.msgbuf.isSome = true

instance allocs_ok_decidable (heap : heap_outcome) : Decidable (allocs_ok heap) :=
  inferInstanceAs (Decidable (heap.topicbuf.isSome = true ∧ heap.msgbuf.isSome = true))

/-- The buffer-pair invariant: the topic buffer and the payload buffer are both
present or both absent. -/
def buffers_paired (self : mqtt_obj_t) : Prop :=
  self.topicbuf.isSome = self.msgbuf.isSome

instance buffers_paired_decidable (self : mqtt_obj_t) : Decidable (buffers_paired self) :=
  inferInstanceAs (Decidable (self.topicbuf.isSome = self.msgbuf.isSome))

/-- What can happen to a handle: a raw event delivered by the client task, a call
of one of the operations, or the external client changing its own record. -/
inductive action where
  | event (event : esp_mqtt_event_t) (heap : heap_outcome)
  | config (args : config_args)
  | free
  | subscribe (topic_in : mp_obj_t) (opt : List mp_obj_t) (res : Int)
  | unsubscribe (topic_in : mp_obj_t) (res : Int)
  | publish (topic_in msg_in : mp_obj_t) (opt : List mp_obj_t) (res : Int)
  | start (res : Int)
  | client_task (client : esp_mqtt_client)

/-- The handle after one action. A destroyed handle has no client that could
deliver an event or change. -/
def step (H : mqtt_client_h) (self : mqtt_obj_t) : action → mqtt_obj_t
  | .event event heap =>
    match self.client with
    | some client => (mqtt_event_handler client self event heap).self
    | none => self
  | .config args => (mqtt_op_config H self args).self
  | .free => (mqtt_op_free self).self
  | .subscribe topic_in opt res => (mqtt_op_subscribe H self topic_in opt res).self
  | .unsubscribe topic_in res => (mqtt_op_unsubscribe H self topic_in res).self
  | .publish topic_in msg_in opt res => (mqtt_op_publish H self topic_in msg_in opt res).self
  | .start res => (mqtt_op_start H self res).self
  | .client_task client =>
    match self.client with
    | some _ => { self with client := some client }
    | none => self

/-- The handle after a sequence of actions. -/
def run (H : mqtt_client_h) (self : mqtt_obj_t) : List action → mqtt_obj_t
  | [] => self
  | a :: rest => run H (step H self a) rest

/-! ## Concrete handles and events used in evaluations -/

/-- A client record in state `Initialized`. -/
def client0 : esp_mqtt_client :=
  { state := 1,
    config := { uri := lit "mqtt://broker", host := [], port := 1883,
                auto_reconnect := false, user_context := none },
    connect_info := { username := [], password := [], client_id := lit "id",
                      keepalive := 120, clean_session := false, will_topic := [],
                      will_message := [], will_qos := 0, will_retain := 0 } }

/-- A handle as after construction with every callback set: client in state
`Initialized`, no reassembly in progress. -/
def handle0 : mqtt_obj_t :=
  { client := some client0,
    name := lit "a",
    mpy_connected_cb := some (.func 1), mpy_disconnected_cb := some (.func 2),
    mpy_subscribed_cb := some (.func 3), mpy_unsubscribed_cb := some (.func 4),
    mpy_published_cb := some (.func 5), mpy_data_cb := some (.func 6),
    msgbuf := none, topicbuf := none, certbuf := none, client_keybuf := none,
    subs_flag := 0, unsubs_flag := 0, publish_flag := 0 }

/-- A data event. -/
def data_event (topic data : Bytes) (total off : Nat) : esp_mqtt_event_t :=
  { event_id := .MQTT_EVENT_DATA, data := data, total_data_len := total,
    current_data_offset := off, topic := topic, type := 0 }

/-- Both allocations succeed and return blocks filled with the byte 170. -/
def heap_ok : heap_outcome :=
  { topicbuf := some (fun _ => 170), msgbuf := some (fun _ => 170) }

/-- The first chunk of the three-chunk scenario: topic `"t"`, 4 of 10 bytes. -/
def scenario_first : esp_mqtt_event_t × heap_outcome :=
  (data_event (lit "t") [1, 2, 3, 4] 10 0, heap_ok)

/-- The middle chunk of the scenario: 4 bytes at offset 4; continuation events
carry no topic. -/
def scenario_mid : List (esp_mqtt_event_t × heap_outcome) :=
  [(data_event [] [5, 6, 7, 8] 10 4, heap_ok)]

/-- The last chunk of the scenario: 2 bytes at offset 8. -/
def scenario_last : esp_mqtt_event_t × heap_outcome :=
  (data_event [] [9, 10] 10 8, heap_ok)

/-- The first chunk of the scenario with the three topic bytes `t`, NUL, `u`. -/
def scenario_first_nul : esp_mqtt_event_t × heap_outcome :=
  (data_event [116, 0, 117] [1, 2, 3, 4] 10 0, heap_ok)

/-- The handle `handle0` with no callback set. -/
def handle_no_cb : mqtt_obj_t :=
  { handle0 with
    mpy_connected_cb := none, mpy_disconnected_cb := none, mpy_subscribed_cb := none,
    mpy_unsubscribed_cb := none, mpy_published_cb := none, mpy_data_cb := none }

/-- The handle `handle0` in the middle of a reassembly: 3 of 8 bytes of a message
for topic `"x"` are stored. -/
def handle_busy : mqtt_obj_t :=
  { handle0 with topicbuf := some [120, 0], msgbuf := some [7, 7, 7, 0, 0, 0, 0, 0, 0, 0] }

/-- A destroyed handle: `handle0` after `free`. -/
def handle_destroyed : mqtt_obj_t := (mqtt_op_free handle0).self

/-- The handle `handle0` with its client in state `Connected`. -/
def handle_connected : mqtt_obj_t :=
  { handle0 with client := some { client0 with state := 2 } }

/-- An event of the given kind that carries no data. -/
def plain_event (id : esp_mqtt_event_id_t) : esp_mqtt_event_t :=
  { event_id := id, data := [], total_data_len := 0, current_data_offset := 0,
    topic := [], type := 0 }

/-- The topic buffer is allocated and the allocation of the payload buffer fails. -/
def heap_msg_fails : heap_outcome :=
  { topicbuf := some (fun _ => 170), msgbuf := none }

/-- A run that starts a reassembly whose payload allocation fails, starts another
one that succeeds, reconfigures the data callback, receives a continuation chunk
and frees the handle. -/
def sample_run : List action :=
  [.event scenario_first.1 heap_msg_fails, .event scenario_first.1 heap_ok,
   .config { data_cb := .func 9 }, .event (data_event [] [5, 6, 7, 8] 10 4) heap_ok, .free]

/-- What a config call does to one callback reference: a function or bound method
passed for it is stored, `False` clears the reference, any other value leaves it
as it was. -/
def cb_follows (old : Option mp_obj_t) (arg : mp_obj_t) (new : Option mp_obj_t) : Prop :=
  ((mp_obj_is_fun arg = true ∨ mp_obj_is_meth arg = true) → new = some arg) ∧
    (arg = .bool false → new = none) ∧
    (mp_obj_is_fun arg = false → mp_obj_is_meth arg = false → arg ≠ .bool false → new = old)

/-- A config call that names every connection-affecting argument, among them a
server string of 100 bytes, and two callbacks. -/
def sample_config : config_args :=
  { server := .str (List.replicate 100 120), user := .str (lit "u"), password := .str (lit "p"),
    port := 8883, autoreconnect := 1, clientid := .str (lit "c"), cleansession := 1,
    keepalive := 30, lwt_topic := .str (lit "w"), lwt_msg := .str (lit "m"),
    data_cb := .func 9, connected_cb := .bool false }

/-- The status bits never show the stopped bit. -/
def bits_never : Nat → Nat := fun _ => 0

/-- The status bits show the stopped bit from the poll with index 25 on. -/
def bits_late : Nat → Nat := fun i => if i < 25 then 0 else 1

/-- The client record `client0` in the state below `Initialized`. -/
def client_stopped : esp_mqtt_client := { client0 with state := 0 }

/-- The connect information of `client0` with clean-session enabled. -/
def connect_info_clean : mqtt_connect_info_t :=
  { client0.connect_info with clean_session := true }

/-- The handle `handle0` with its client in the state below `Initialized`. -/
def handle_stopped : mqtt_obj_t := { handle0 with client := some client_stopped }

/-- The handle `handle_stopped` with clean-session enabled. -/
def handle_stopped_clean : mqtt_obj_t :=
  { handle0 with client := some { client_stopped with connect_info := connect_info_clean } }

/-- The handle `handle0`, in state `Initialized`, with clean-session enabled. -/
def handle_init_clean : mqtt_obj_t :=
  { handle0 with client := some { client0 with connect_info := connect_info_clean } }

/-- A string argument fits the capacity `cap`; an argument that is not a string
is not stored at all. -/
def str_within (arg : mp_obj_t) (cap : Nat) : Prop :=
  ∀ s, arg = .str s → strlen s < cap

/-- The certificate files named by the arguments, if any, load without error. -/
def certs_load (env : new_env) (args : new_args) : Prop :=
  (∀ cert, args.cert = .str cert → cert_to_buf (env.files (cstr cert)) = none) ∧
    (∀ cert key, args.cert = .str cert → args.client_key = .str key →
      cert_to_buf (env.files (cstr key)) = none)

/-- An environment in which the URL parser rejects every string, no file opens
and the external client is created in state `Initialized`. -/
def env_parse_fails : new_env :=
  { MICROPY_TASK_PRIORITY := 8, http_parser_parse_url := fun _ => 1, random_at_most := 4660,
    files := fun _ => ⟨false, 0, 0, false, 0⟩, esp_mqtt_client_init := fun _ => some client0 }

/-- The construction of the scenario: name `"a"`, server `"broker.example:1883"`,
no TLS, nothing else passed. -/
def scenario_new : new_args :=
  { name := .str (lit "a"), server := .str (lit "broker.example:1883"), keepalive := 120 }

/-- The buffer indices written while a sequence of data events is handled with
`data_cb`, in order. -/
def run_data_cb_writes (self : mqtt_obj_t) :
    List (esp_mqtt_event_t × heap_outcome) → List (buf_id × Nat)
  | [] => []
  | (event, heap) :: rest =>
    (data_cb self event heap).writes ++ run_data_cb_writes (data_cb self event heap).self rest

/-- The buffers of the handle, when present, are blocks of `msg_size` and
`topic_size` bytes. -/
def buffer_sizes (self : mqtt_obj_t) (msg_size topic_size : Nat) : Prop :=
  (∀ mb, self.msgbuf = some mb → mb.length = msg_size) ∧
    (∀ tb, self.topicbuf = some tb → tb.length = topic_size)

/-- The write `w` lies inside blocks of `msg_size` and `topic_size` bytes. -/
def write_within (msg_size topic_size : Nat) (w : buf_id × Nat) : Prop :=
  (w.1 = buf_id.msgbuf → w.2 < msg_size) ∧ (w.1 = buf_id.topicbuf → w.2 < topic_size)

/-- The handle `handle_busy` after a config call that clears the data callback. -/
def handle_busy_no_cb : mqtt_obj_t :=
  (mqtt_op_config espmqtt_h handle_busy { data_cb := .bool false }).self

/-- A config call that passes only a port. -/
def config_port : config_args := { port := 8883 }

/-- A config call that passes only a server string of 100 bytes. -/
def config_long_server : config_args := { server := .str (List.replicate 100 120) }

/-- A config call that passes only a data callback. -/
def config_cb_only : config_args := { data_cb := .func 9 }

/-- The 10-byte message of the scenario for the topic bytes `t`, NUL, `u`, delivered
whole in one event. -/
def single_nul : esp_mqtt_event_t × heap_outcome :=
  (data_event [116, 0, 117] [1, 2, 3, 4, 5, 6, 7, 8, 9, 10] 10 0, heap_ok)

/-- A config call that gives a server, a port and a password. -/
def config_other : config_args :=
  { server := .str (lit "other"), port := 8883, password := .str (lit "p") }

/-- The run that lets the payload allocation of a first chunk fail. -/
def failed_alloc_run : List action := [.event scenario_first.1 heap_msg_fails]

end modmqtt


namespace modmqtt

/-! ## Lemmas on the memory primitives -/

theorem length_memcpy (buf : Bytes) (off : Nat) (src : Bytes) :
    (memcpy buf off src).length = buf.length := by
  simp only [memcpy, List.length_take, List.length_append, List.length_drop]
  omega

theorem take_memcpy (buf : Bytes) (off : Nat) (src : Bytes)
    (h : off + src.length ≤ buf.length) :
    (memcpy buf off src).take (off + src.length) = buf.take off ++ src := by
  have hlen : (buf.take off ++ src).length = off + src.length := by
    simp only [List.length_append, List.length_take]; omega
  rw [memcpy, List.take_take, Nat.min_eq_left h, List.take_left' hlen]

theorem take_set_self (l : Bytes) (n v : Nat) : (l.set n v).take n = l.take n := by
  induction l generalizing n with
  | nil => simp
  | cons a l ih =>
    cases n with
    | zero => simp
    | succ n => simp [ih]

theorem cstr_append_nul (t r : Bytes) : cstr (t ++ 0 :: r) = cstr t := by
  induction t with
  | nil => simp [cstr]
  | cons a t ih =>
    simp only [cstr, List.cons_append, List.takeWhile_cons] at ih ⊢
    split
    · rw [ih]
    · rfl

theorem cstr_of_no_nul (t : Bytes) (h : ∀ b ∈ t, b ≠ 0) : cstr t = t := by
  induction t with
  | nil => rfl
  | cons a t ih =>
    have ha : a ≠ 0 := h a (List.mem_cons_self a t)
    have ht : ∀ b ∈ t, b ≠ 0 := fun b hb => h b (List.mem_cons_of_mem a hb)
    simp only [cstr, List.takeWhile_cons] at ih ⊢
    simp [ha, ih ht]

theorem topicbuf_filled (block topic : Bytes) (h : block.length = topic.length + 1) :
    ∃ r, (memcpy block 0 topic).set topic.length 0 = topic ++ 0 :: r := by
  refine ⟨[], ?_⟩
  have h1 : (block.drop topic.length).length = 1 := by simp [h]
  obtain ⟨x, hx⟩ := List.length_eq_one.mp h1
  have h2 : memcpy block 0 topic = topic ++ [x] := by
    simp [memcpy, hx, h]
  rw [h2, List.set_append_right _ _ (Nat.le_refl _)]
  simp

theorem take_strlen (s : Bytes) : s.take (strlen s) = cstr s := by
  induction s with
  | nil => rfl
  | cons a t ih =>
    simp only [strlen, cstr, List.takeWhile_cons] at ih ⊢
    split
    · simp [ih]
    · simp

theorem chunks_data_append (xs ys : List esp_mqtt_event_t) :
    chunks_data (xs ++ ys) = chunks_data xs ++ chunks_data ys := by
  induction xs with
  | nil => rfl
  | cons x xs ih => simp [chunks_data, ih]

/-- One continuation chunk that does not complete the message: it is copied into
the payload buffer and nothing is scheduled. -/
theorem data_cb_continue (self : mqtt_obj_t) (event : esp_mqtt_event_t) (heap : heap_outcome)
    (cb : mp_obj_t) (tb mb : Bytes)
    (hcb : self.mpy_data_cb = some cb) (htb : self.topicbuf = some tb)
    (hmb : self.msgbuf = some mb) (hoff : 0 < event.current_data_offset)
    (hlt : event.current_data_offset + event.data.length < event.total_data_len) :
    (data_cb self event heap).self =
        { self with msgbuf := some ((memcpy mb event.current_data_offset event.data).set
            (event.current_data_offset + event.data.length) 0) } ∧
      (data_cb self event heap).sched = [] := by
  have h0 : event.current_data_offset ≠ 0 := by omega
  have hge : ¬ event.current_data_offset + event.data.length ≥ event.total_data_len := by omega
  simp [data_cb, hcb, htb, hmb, h0, hge]

/-- The continuation chunk that completes the message: one record is scheduled
with the stored topic and the first `total_data_len` bytes of the payload buffer,
and both buffers are released. -/
theorem data_cb_complete (self : mqtt_obj_t) (event : esp_mqtt_event_t) (heap : heap_outcome)
    (cb : mp_obj_t) (tb mb : Bytes)
    (hcb : self.mpy_data_cb = some cb) (htb : self.topicbuf = some tb)
    (hmb : self.msgbuf = some mb) (hoff : 0 < event.current_data_offset)
    (hge : event.current_data_offset + event.data.length ≥ event.total_data_len) :
    (data_cb self event heap).self = { self with msgbuf := none, topicbuf := none } ∧
      (data_cb self event heap).sched =
        [⟨cb, [.self_obj, .str (cstr self.name), .str (cstr tb),
               .str (((memcpy mb event.current_data_offset event.data).set
                 (event.current_data_offset + event.data.length) 0).take
                   event.total_data_len)]⟩] := by
  have h0 : event.current_data_offset ≠ 0 := by omega
  simp [data_cb, hcb, htb, hmb, h0, hge, mp_obj_new_str, take_strlen]

/-- The continuation phase of a reassembly: with a buffer pair present that holds
the first `off` bytes, the chunks before the last one schedule nothing and the
last one schedules the whole message. -/
theorem reassembly_tail (cb : mp_obj_t) (total : Nat)
    (rest : List (esp_mqtt_event_t × heap_outcome)) (last : esp_mqtt_event_t × heap_outcome) :
    ∀ (self : mqtt_obj_t) (tb mb : Bytes) (off : Nat),
      self.mpy_data_cb = some cb → self.topicbuf = some tb → self.msgbuf = some mb →
      mb.length = total + 2 → 0 < off →
      in_order total off ((rest ++ [last]).map Prod.fst) →
      off + (chunks_data ((rest ++ [last]).map Prod.fst)).length = total →
      (∀ x ∈ rest ++ [last], x.1.data ≠ []) →
      (run_data_cb self rest).2 = [] ∧
      (data_cb (run_data_cb self rest).1 last.1 last.2).self =
        { self with msgbuf := none, topicbuf := none } ∧
      (data_cb (run_data_cb self rest).1 last.1 last.2).sched =
        [⟨cb, [.self_obj, .str (cstr self.name), .str (cstr tb),
               .str (mb.take off ++ chunks_data ((rest ++ [last]).map Prod.fst))]⟩] := by
  induction rest with
  | nil =>
    intro self tb mb off hcb htb hmb hlen hoff hord hsum _
    simp only [List.nil_append, List.map_cons, List.map_nil, in_order, chunks_data,
      List.append_nil, and_true] at hord hsum
    obtain ⟨ho, ht⟩ := hord
    have hge : last.1.current_data_offset + last.1.data.length ≥ last.1.total_data_len := by
      omega
    have hc := data_cb_complete self last.1 last.2 cb tb mb hcb htb hmb (by omega) hge
    refine ⟨rfl, hc.1, ?_⟩
    have hT : last.1.total_data_len = last.1.current_data_offset + last.1.data.length := by
      omega
    have hin : last.1.current_data_offset + last.1.data.length ≤ mb.length := by omega
    simp only [run_data_cb, List.nil_append, List.map_cons, List.map_nil, chunks_data,
      List.append_nil]
    rw [hc.2, hT, take_set_self, take_memcpy _ _ _ hin, ho]
  | cons x rest ih =>
    intro self tb mb off hcb htb hmb hlen hoff hord hsum hne
    obtain ⟨event, heap⟩ := x
    simp only [List.cons_append, List.map_cons, in_order, chunks_data,
      List.length_append, List.append_eq] at hord hsum
    obtain ⟨ho, ht, hord⟩ := hord
    have hlast : 0 < last.1.data.length :=
      List.length_pos.mpr (hne last (by simp))
    have hrest : last.1.data.length ≤
        (chunks_data ((rest ++ [last]).map Prod.fst)).length := by
      simp [List.map_append, chunks_data_append, chunks_data]
    have hlt : event.current_data_offset + event.data.length < event.total_data_len := by
      omega
    have hc := data_cb_continue self event heap cb tb mb hcb htb hmb (by omega) hlt
    have hin : off + event.data.length ≤ mb.length := by omega
    have hne2 : ∀ y ∈ rest ++ [last], y.1.data ≠ [] :=
      fun y hy => hne y (List.mem_cons_of_mem _ hy)
    have hpos : 0 < event.data.length := List.length_pos.mpr (hne (event, heap) (by simp))
    have key := ih (data_cb self event heap).self tb
      ((memcpy mb off event.data).set (off + event.data.length) 0) (off + event.data.length)
      (by rw [hc.1]; exact hcb) (by rw [hc.1]; exact htb) (by rw [hc.1, ho])
      (by rw [List.length_set, length_memcpy]; exact hlen) (by omega) hord (by omega) hne2
    obtain ⟨k1, k2, k3⟩ := key
    simp only [run_data_cb, List.cons_append, List.map_cons, chunks_data]
    refine ⟨by rw [hc.2, k1]; rfl, ?_, ?_⟩
    · rw [k2, hc.1]
    · rw [k3, hc.1, take_set_self, take_memcpy _ _ _ hin, List.append_assoc]
      rfl

/-- The first chunk of a message that needs more chunks: the buffer pair is
allocated, the topic is stored as a C string and the chunk is copied in. -/
theorem data_cb_first (self : mqtt_obj_t) (event : esp_mqtt_event_t) (heap : heap_outcome)
    (cb : mp_obj_t) (hcb : self.mpy_data_cb = some cb)
    (hoff : event.current_data_offset = 0)
    (hlt : event.data.length < event.total_data_len) (hok : allocs_ok heap) :
    ∃ tb mb, (data_cb self event heap).self =
        { self with topicbuf := some tb, msgbuf := some mb } ∧
      (data_cb self event heap).sched = [] ∧ cstr tb = cstr event.topic ∧
      mb.length = event.total_data_len + 2 ∧ mb.take event.data.length = event.data := by
  obtain ⟨ht, hm⟩ := hok
  obtain ⟨jt, hjt⟩ := Option.isSome_iff_exists.mp ht
  obtain ⟨jm, hjm⟩ := Option.isSome_iff_exists.mp hm
  obtain ⟨r, hr⟩ := topicbuf_filled ((List.range (event.topic.length + 1)).map jt) event.topic
    (by simp)
  refine ⟨(memcpy ((List.range (event.topic.length + 1)).map jt) 0 event.topic).set
      event.topic.length 0,
    (memcpy ((List.range (event.total_data_len + 1 + 1)).map jm) 0 event.data).set
      event.data.length 0, ?_, ?_, ?_, ?_, ?_⟩
  · simp [data_cb, hcb, hoff, hlt, pvPortMalloc, hjt, hjm]
  · simp [data_cb, hcb, hoff, hlt, pvPortMalloc, hjt, hjm]
  · rw [hr, cstr_append_nul]
  · simp [length_memcpy]
  · have h := take_memcpy ((List.range (event.total_data_len + 1 + 1)).map jm) 0 event.data
      (by simp; omega)
    simp only [Nat.zero_add, List.take_zero, List.nil_append] at h
    rw [take_set_self, h]

/-- A message delivered in two or more non-empty chunks: nothing is scheduled
before the last chunk, the last chunk schedules one record that carries the
stored topic and all the chunk data, and no buffer is left behind. -/
theorem reassembly_chunked (self : mqtt_obj_t) (cb : mp_obj_t) (total : Nat)
    (first : esp_mqtt_event_t × heap_outcome)
    (mid : List (esp_mqtt_event_t × heap_outcome)) (last : esp_mqtt_event_t × heap_outcome)
    (hcb : self.mpy_data_cb = some cb)
    (hord : in_order total 0 ((first :: mid ++ [last]).map Prod.fst))
    (hsum : (chunks_data ((first :: mid ++ [last]).map Prod.fst)).length = total)
    (hne : ∀ x ∈ first :: mid ++ [last], x.1.data ≠ [])
    (hok : allocs_ok first.2) :
    (run_data_cb self (first :: mid)).2 = [] ∧
      (data_cb (run_data_cb self (first :: mid)).1 last.1 last.2).self =
        { self with msgbuf := none, topicbuf := none } ∧
      (data_cb (run_data_cb self (first :: mid)).1 last.1 last.2).sched =
        [⟨cb, [.self_obj, .str (cstr self.name), .str (cstr first.1.topic),
               .str (chunks_data ((first :: mid ++ [last]).map Prod.fst))]⟩] := by
  obtain ⟨event, heap⟩ := first
  simp only [List.cons_append, List.map_cons, in_order, chunks_data, List.length_append,
    List.append_eq, Nat.zero_add] at hord hsum
  obtain ⟨ho, ht, hord⟩ := hord
  have hlast : 0 < last.1.data.length := List.length_pos.mpr (hne last (by simp))
  have hrest : last.1.data.length ≤ (chunks_data ((mid ++ [last]).map Prod.fst)).length := by
    simp [List.map_append, chunks_data_append, chunks_data]
  have hpos : 0 < event.data.length := List.length_pos.mpr (hne (event, heap) (by simp))
  obtain ⟨tb, mb, h1, h2, h3, h4, h5⟩ :=
    data_cb_first self event heap cb hcb ho (by omega) hok
  have key := reassembly_tail cb total mid last (data_cb self event heap).self tb mb
    event.data.length (by rw [h1]; exact hcb) (by rw [h1]) (by rw [h1])
    (by rw [h4, ht]) hpos hord hsum (fun y hy => hne y (List.mem_cons_of_mem _ hy))
  obtain ⟨k1, k2, k3⟩ := key
  simp only [run_data_cb, List.cons_append, List.map_cons, chunks_data]
  refine ⟨by rw [h2, k1]; rfl, ?_, ?_⟩
  · rw [k2, h1]
  · rw [k3, h1, h5, h3]
    rfl

/-! ## C1, C2: reassembly -/

/-- C2 (the code cuts the topic of a chunked message at a zero byte): for every
message delivered to `data_cb` in two or more non-empty chunks
`first :: mid ++ [last]`, in order, with the data callback set and the
allocations of the first chunk succeeding, the record scheduled by the last chunk
has as payload the concatenation of the chunk data in order, as the claim says;
but its topic is built with `strlen(topicbuf)`: it is the topic bytes of the first
chunk before their first zero byte, and all `topic_len` bytes only when none of
them is zero, whereas a message that arrives in one chunk is delivered with all
`topic_len` bytes. -/
theorem data_cb_reassembled_content (self : mqtt_obj_t) (cb : mp_obj_t) (total : Nat)
    (first : esp_mqtt_event_t × heap_outcome)
    (mid : List (esp_mqtt_event_t × heap_outcome)) (last : esp_mqtt_event_t × heap_outcome)
    (hcb : self.mpy_data_cb = some cb)
    (hord : in_order total 0 ((first :: mid ++ [last]).map Prod.fst))
    (hsum : (chunks_data ((first :: mid ++ [last]).map Prod.fst)).length = total)
    (hne : ∀ x ∈ first :: mid ++ [last], x.1.data ≠ [])
    (hok : allocs_ok first.2) :
    (data_cb (run_data_cb self (first :: mid)).1 last.1 last.2).sched =
        [⟨cb, [.self_obj, .str (cstr self.name), .str (cstr first.1.topic),
               .str (chunks_data ((first :: mid ++ [last]).map Prod.fst))]⟩] ∧
      ((∀ b ∈ first.1.topic, b ≠ 0) → cstr first.1.topic = first.1.topic) :=
  ⟨(reassembly_chunked self cb total first mid last hcb hord hsum hne hok).2.2,
   cstr_of_no_nul first.1.topic⟩

/-- C2, at the failing input: with the topic bytes `t`, NUL, `u` on the first
chunk, the three chunks of lengths 4, 4, 2 at offsets 0, 4, 8 yield a record with
the 10 payload bytes whose topic is the single byte `t`. -/
theorem data_cb_reassembled_content_witness :
    (data_cb (run_data_cb handle0 (scenario_first_nul :: scenario_mid)).1
        scenario_last.1 scenario_last.2).sched =
        [⟨.func 6, [.self_obj, .str [97], .str [116],
           .str [1, 2, 3, 4, 5, 6, 7, 8, 9, 10]]⟩] ∧
      ((∀ b ∈ scenario_first_nul.1.topic, b ≠ 0) →
        cstr scenario_first_nul.1.topic = scenario_first_nul.1.topic) :=
  data_cb_reassembled_content handle0 (.func 6) 10 scenario_first_nul scenario_mid
    scenario_last rfl (by decide) (by decide) (by decide) (by decide)

/-- The two paths of `data_cb` on the same message for the topic bytes `t`, NUL,
`u`: delivered in one chunk the record carries the three topic bytes, delivered
in the three chunks of the scenario it carries the single byte `t`; for the topic
`"t"` the three chunks yield the record `("t", the 10 bytes)`. -/
theorem chunked_topic_differs_from_single :
    single_nul.1.topic = scenario_first_nul.1.topic ∧
      (data_cb handle0 single_nul.1 single_nul.2).sched =
        [⟨.func 6, [.self_obj, .str [97], .str [116, 0, 117],
           .str [1, 2, 3, 4, 5, 6, 7, 8, 9, 10]]⟩] ∧
      (run_data_cb handle0 (scenario_first_nul :: scenario_mid ++ [scenario_last])).2 =
        [⟨.func 6, [.self_obj, .str [97], .str [116],
           .str [1, 2, 3, 4, 5, 6, 7, 8, 9, 10]]⟩] ∧
      (run_data_cb handle0 (scenario_first :: scenario_mid ++ [scenario_last])).2 =
        [⟨.func 6, [.self_obj, .str [97], .str [116],
           .str [1, 2, 3, 4, 5, 6, 7, 8, 9, 10]]⟩] := by
  decide

/-! ## C3: stale eviction -/

/-- A continuation chunk that finds no buffer pair is dropped: for every handle in
which the topic buffer or the payload buffer is null and whose data callback is
set - or whose buffers are both absent - and every data event with offset above
0, `data_cb` schedules nothing, writes no buffer and leaves both buffers
absent. -/
theorem data_cb_desync_drops (self : mqtt_obj_t) (event : esp_mqtt_event_t)
    (heap : heap_outcome)
    (hpair : self.topicbuf = none ∨ self.msgbuf = none)
    (hcb : self.mpy_data_cb ≠ none ∨ (self.topicbuf = none ∧ self.msgbuf = none))
    (hoff : 0 < event.current_data_offset) :
    (data_cb self event heap).sched = [] ∧ (data_cb self event heap).writes = [] ∧
      (data_cb self event heap).self.topicbuf = none ∧
      (data_cb self event heap).self.msgbuf = none := by
  have h0 : event.current_data_offset ≠ 0 := by omega
  cases hd : self.mpy_data_cb with
  | none =>
    rcases hcb with h | ⟨h1, h2⟩
    · exact absurd hd h
    · simp [data_cb, hd, h1, h2]
  | some cb =>
    rcases hpair with h | h
    · simp [data_cb, hd, h0, h]
    · cases ht : self.topicbuf <;> simp [data_cb, hd, h0, h, ht]

/-! ## C5: the buffer-pair invariant -/

theorem data_cb_paired (self : mqtt_obj_t) (event : esp_mqtt_event_t) (heap : heap_outcome)
    (h : buffers_paired self) : buffers_paired (data_cb self event heap).self := by
  unfold data_cb
  cases self.mpy_data_cb with
  | none => exact h
  | some cb =>
    simp only
    split
    · split
      · cases heap.topicbuf <;> cases heap.msgbuf <;> simp [pvPortMalloc, buffers_paired]
      · simp [buffers_paired]
    · split
      · split <;> simp [buffers_paired, *]
      · simp [buffers_paired]

theorem mqtt_event_handler_paired (client : esp_mqtt_client) (self : mqtt_obj_t)
    (event : esp_mqtt_event_t) (heap : heap_outcome) (h : buffers_paired self) :
    buffers_paired (mqtt_event_handler client self event heap).self := by
  unfold mqtt_event_handler
  cases event.event_id <;> first | exact h | exact data_cb_paired self event heap h

theorem set_user_context_bufs (self : mqtt_obj_t) (ctx : Option Bytes) :
    (set_user_context self ctx).topicbuf = self.topicbuf ∧
      (set_user_context self ctx).msgbuf = self.msgbuf := by
  unfold set_user_context
  cases self.client <;> simp

theorem mqtt_op_config_bufs (H : mqtt_client_h) (self : mqtt_obj_t) (args : config_args) :
    (mqtt_op_config H self args).self.topicbuf = self.topicbuf ∧
      (mqtt_op_config H self args).self.msgbuf = self.msgbuf := by
  unfold mqtt_op_config
  cases self.client with
  | none => simp
  | some client =>
    simp only
    split
    · split <;> simp [cfg_callbacks]
    · simp [cfg_callbacks]

theorem mqtt_op_free_paired (self : mqtt_obj_t) (h : buffers_paired self) :
    buffers_paired (mqtt_op_free self).self := by
  unfold mqtt_op_free
  cases self.client with
  | none => exact h
  | some client => simp [buffers_paired]

theorem mqtt_op_subscribe_bufs (H : mqtt_client_h) (self : mqtt_obj_t) (topic_in : mp_obj_t)
    (opt : List mp_obj_t) (res : Int) :
    (mqtt_op_subscribe H self topic_in opt res).self.topicbuf = self.topicbuf ∧
      (mqtt_op_subscribe H self topic_in opt res).self.msgbuf = self.msgbuf := by
  unfold mqtt_op_subscribe
  repeat' split
  all_goals simp [(set_user_context_bufs _ _).1, (set_user_context_bufs _ _).2]

theorem mqtt_op_unsubscribe_bufs (H : mqtt_client_h) (self : mqtt_obj_t) (topic_in : mp_obj_t)
    (res : Int) :
    (mqtt_op_unsubscribe H self topic_in res).self.topicbuf = self.topicbuf ∧
      (mqtt_op_unsubscribe H self topic_in res).self.msgbuf = self.msgbuf := by
  unfold mqtt_op_unsubscribe
  repeat' split
  all_goals simp [(set_user_context_bufs _ _).1, (set_user_context_bufs _ _).2]

theorem mqtt_op_publish_bufs (H : mqtt_client_h) (self : mqtt_obj_t) (topic_in msg_in : mp_obj_t)
    (opt : List mp_obj_t) (res : Int) :
    (mqtt_op_publish H self topic_in msg_in opt res).self.topicbuf = self.topicbuf ∧
      (mqtt_op_publish H self topic_in msg_in opt res).self.msgbuf = self.msgbuf := by
  unfold mqtt_op_publish
  repeat' split
  all_goals simp [(set_user_context_bufs _ _).1, (set_user_context_bufs _ _).2]

theorem mqtt_op_start_self (H : mqtt_client_h) (self : mqtt_obj_t) (res : Int) :
    (mqtt_op_start H self res).self = self := by
  unfold mqtt_op_start
  repeat' split
  all_goals rfl

theorem step_paired (H : mqtt_client_h) (self : mqtt_obj_t) (a : action)
    (h : buffers_paired self) : buffers_paired (step H self a) := by
  cases a with
  | event event heap =>
    simp only [step]
    cases hc : self.client with
    | none => exact h
    | some client => exact mqtt_event_handler_paired client self event heap h
  | config args =>
    simp only [step, buffers_paired, (mqtt_op_config_bufs H self args).1,
      (mqtt_op_config_bufs H self args).2]
    exact h
  | free => exact mqtt_op_free_paired self h
  | subscribe topic_in opt res =>
    simp only [step, buffers_paired, (mqtt_op_subscribe_bufs H self topic_in opt res).1,
      (mqtt_op_subscribe_bufs H self topic_in opt res).2]
    exact h
  | unsubscribe topic_in res =>
    simp only [step, buffers_paired, (mqtt_op_unsubscribe_bufs H self topic_in res).1,
      (mqtt_op_unsubscribe_bufs H self topic_in res).2]
    exact h
  | publish topic_in msg_in opt res =>
    simp only [step, buffers_paired, (mqtt_op_publish_bufs H self topic_in msg_in opt res).1,
      (mqtt_op_publish_bufs H self topic_in msg_in opt res).2]
    exact h
  | start res =>
    simp only [step, mqtt_op_start_self]
    exact h
  | client_task client =>
    simp only [step]
    cases self.client <;> exact h

theorem run_paired (H : mqtt_client_h) (actions : List action) :
    ∀ (self : mqtt_obj_t), buffers_paired self → buffers_paired (run H self actions) := by
  induction actions with
  | nil => intro self h; exact h
  | cons a rest ih => intro self h; exact ih (step H self a) (step_paired H self a h)

/-- C4: for every handle the code can hold - the handle after any sequence of raw
events, operations and changes of the client record, starting from a handle with
both buffers null - in which the reassembly buffer pair is not present (the topic
buffer or the payload buffer is null), and every data event with offset above 0,
whatever its chunk length, total length, data and allocation outcomes, and
whatever the callback references, `data_cb` schedules no record, writes no buffer,
and afterwards both buffers are absent. -/
theorem data_cb_desync_safe (H : mqtt_client_h) (start : mqtt_obj_t) (actions : List action)
    (event : esp_mqtt_event_t) (heap : heap_outcome)
    (ht : start.topicbuf = none) (hm : start.msgbuf = none)
    (hpair : (run H start actions).topicbuf = none ∨ (run H start actions).msgbuf = none)
    (hoff : 0 < event.current_data_offset) :
    (data_cb (run H start actions) event heap).sched = [] ∧
      (data_cb (run H start actions) event heap).writes = [] ∧
      (data_cb (run H start actions) event heap).self.topicbuf = none ∧
      (data_cb (run H start actions) event heap).self.msgbuf = none := by
  have hp : buffers_paired (run H start actions) :=
    run_paired H actions start (by simp [buffers_paired, ht, hm])
  have hboth : (run H start actions).topicbuf = none ∧ (run H start actions).msgbuf = none := by
    unfold buffers_paired at hp
    rcases hpair with h | h
    · refine ⟨h, ?_⟩
      rw [h] at hp
      cases hmb : (run H start actions).msgbuf with
      | none => rfl
      | some mb => rw [hmb] at hp; simp at hp
    · refine ⟨?_, h⟩
      rw [h] at hp
      cases htb : (run H start actions).topicbuf with
      | none => rfl
      | some tb => rw [htb] at hp; simp at hp
  exact data_cb_desync_drops (run H start actions) event heap hpair (Or.inr hboth) hoff

/-- C4, instance: after a first chunk whose payload allocation failed, the handle
`handle0` holds no buffers; a continuation chunk at offset 4 schedules nothing,
writes nothing and leaves both buffers absent. -/
theorem data_cb_desync_safe_witness :
    (data_cb (run espmqtt_h handle0 failed_alloc_run) (data_event [] [5, 6] 10 4)
        heap_ok).sched = [] ∧
      (data_cb (run espmqtt_h handle0 failed_alloc_run) (data_event [] [5, 6] 10 4)
        heap_ok).writes = [] ∧
      (data_cb (run espmqtt_h handle0 failed_alloc_run) (data_event [] [5, 6] 10 4)
        heap_ok).self.topicbuf = none ∧
      (data_cb (run espmqtt_h handle0 failed_alloc_run) (data_event [] [5, 6] 10 4)
        heap_ok).self.msgbuf = none :=
  data_cb_desync_safe espmqtt_h handle0 failed_alloc_run (data_event [] [5, 6] 10 4) heap_ok
    rfl rfl (Or.inl rfl) (by decide)

/-- C5: starting from a handle with both buffers null, after every sequence of
raw events (of every kind, offset, length, with every callback configuration and
every outcome of the two allocations), of config and free calls, and of the
other operations and changes of the client record, the topic buffer and the
payload buffer are both present or both absent; and so they are after one more
raw event handled by `mqtt_event_handler` or `data_cb`, for whatever client
delivers it. -/
theorem buffers_paired_invariant (H : mqtt_client_h) (self : mqtt_obj_t)
    (actions : List action) (ht : self.topicbuf = none) (hm : self.msgbuf = none) :
    buffers_paired (run H self actions) ∧
      ∀ (client : esp_mqtt_client) (event : esp_mqtt_event_t) (heap : heap_outcome),
        buffers_paired (mqtt_event_handler client (run H self actions) event heap).self ∧
          buffers_paired (data_cb (run H self actions) event heap).self := by
  have h0 : buffers_paired self := by simp [buffers_paired, ht, hm]
  clear ht hm
  have hrun : buffers_paired (run H self actions) := by
    induction actions generalizing self with
    | nil => exact h0
    | cons a rest ih => exact ih (step H self a) (step_paired H self a h0)
  exact ⟨hrun, fun client event heap =>
    ⟨mqtt_event_handler_paired client _ event heap hrun, data_cb_paired _ event heap hrun⟩⟩

/-- C5, instance: the invariant after a run with a failed allocation, a
reassembly in progress, a config call and a free call. -/
theorem buffers_paired_invariant_witness : buffers_paired (run espmqtt_h handle0 sample_run) :=
  (buffers_paired_invariant espmqtt_h handle0 sample_run rfl rfl).1

/-! ## C6: callback gating -/

/-- C6: for each of the six event kinds, when the callback reference of that kind is
null, `mqtt_event_handler` schedules nothing for a raw event of that kind,
whatever the other callback references, the event and the allocation outcomes. -/
theorem unset_callback_schedules_nothing (client : esp_mqtt_client) (self : mqtt_obj_t)
    (event : esp_mqtt_event_t) (heap : heap_outcome) :
    (event.event_id = .MQTT_EVENT_CONNECTED → self.mpy_connected_cb = none →
        (mqtt_event_handler client self event heap).sched = []) ∧
      (event.event_id = .MQTT_EVENT_DISCONNECTED → self.mpy_disconnected_cb = none →
        (mqtt_event_handler client self event heap).sched = []) ∧
      (event.event_id = .MQTT_EVENT_SUBSCRIBED → self.mpy_subscribed_cb = none →
        (mqtt_event_handler client self event heap).sched = []) ∧
      (event.event_id = .MQTT_EVENT_UNSUBSCRIBED → self.mpy_unsubscribed_cb = none →
        (mqtt_event_handler client self event heap).sched = []) ∧
      (event.event_id = .MQTT_EVENT_PUBLISHED → self.mpy_published_cb = none →
        (mqtt_event_handler client self event heap).sched = []) ∧
      (event.event_id = .MQTT_EVENT_DATA → self.mpy_data_cb = none →
        (mqtt_event_handler client self event heap).sched = []) := by
  refine ⟨?_, ?_, ?_, ?_, ?_, ?_⟩ <;> intro hid hcb
  · simp [mqtt_event_handler, hid, connected_cb, hcb]
  · simp [mqtt_event_handler, hid, disconnected_cb, hcb]
  · simp [mqtt_event_handler, hid, subscribed_cb, hcb]
  · simp [mqtt_event_handler, hid, unsubscribed_cb, hcb]
  · simp [mqtt_event_handler, hid, published_cb, hcb]
  · simp [mqtt_event_handler, hid, data_cb, hcb]

/-- C6, instance: a single-chunk data event for a handle whose data callback is
unset and whose other five callbacks are set schedules nothing. -/
theorem unset_callback_schedules_nothing_witness :
    (mqtt_event_handler client0 { handle0 with mpy_data_cb := none }
      (data_event (lit "t") [1, 2] 2 0) heap_ok).sched = [] :=
  (unset_callback_schedules_nothing client0 { handle0 with mpy_data_cb := none }
    (data_event (lit "t") [1, 2] 2 0) heap_ok).2.2.2.2.2 rfl rfl

/-! ## C7: free -/

/-- C7: for every handle that is not destroyed, `free` returns true and leaves the
six callback references and the client pointer null; a second `free` on the
resulting handle returns false and changes nothing. -/
theorem free_twice (self : mqtt_obj_t) (client : esp_mqtt_client)
    (h : self.client = some client) :
    (mqtt_op_free self).ret = .returned (.bool true) ∧
      (mqtt_op_free self).self.mpy_connected_cb = none ∧
      (mqtt_op_free self).self.mpy_disconnected_cb = none ∧
      (mqtt_op_free self).self.mpy_subscribed_cb = none ∧
      (mqtt_op_free self).self.mpy_unsubscribed_cb = none ∧
      (mqtt_op_free self).self.mpy_published_cb = none ∧
      (mqtt_op_free self).self.mpy_data_cb = none ∧
      (mqtt_op_free self).self.client = none ∧
      (mqtt_op_free (mqtt_op_free self).self).ret = .returned (.bool false) ∧
      (mqtt_op_free (mqtt_op_free self).self).self = (mqtt_op_free self).self ∧
      (mqtt_op_free (mqtt_op_free self).self).calls = [] := by
  simp [mqtt_op_free, h]

/-- C7, instance: freeing the handle `handle0` twice. -/
theorem free_twice_witness :
    (mqtt_op_free handle0).ret = .returned (.bool true) ∧
      (mqtt_op_free handle0).self.mpy_connected_cb = none ∧
      (mqtt_op_free handle0).self.mpy_disconnected_cb = none ∧
      (mqtt_op_free handle0).self.mpy_subscribed_cb = none ∧
      (mqtt_op_free handle0).self.mpy_unsubscribed_cb = none ∧
      (mqtt_op_free handle0).self.mpy_published_cb = none ∧
      (mqtt_op_free handle0).self.mpy_data_cb = none ∧
      (mqtt_op_free handle0).self.client = none ∧
      (mqtt_op_free (mqtt_op_free handle0).self).ret = .returned (.bool false) ∧
      (mqtt_op_free (mqtt_op_free handle0).self).self = (mqtt_op_free handle0).self ∧
      (mqtt_op_free (mqtt_op_free handle0).self).calls = [] :=
  free_twice handle0 client0 rfl

/-! ## C8: operations on a destroyed handle -/

/-- C8 (amended): for every destroyed handle (client pointer null), config fails
with the error `Destroyed` and subscribe, unsubscribe and publish fail with the
error `Mqtt client destroyed`, for every argument list and without changing the
handle; start and stop do nothing and return `None`, free returns false and
status returns `(-1, "Destroyed")`. -/
theorem destroyed_handle_operations (H : mqtt_client_h) (self : mqtt_obj_t)
    (h : self.client = none) :
    (∀ args, mqtt_op_config H self args = ⟨self, .raised ⟨.ValueError, "Destroyed"⟩, []⟩) ∧
      (∀ topic_in opt res, mqtt_op_subscribe H self topic_in opt res =
        ⟨self, .raised ⟨.OSError, "Mqtt client destroyed"⟩, []⟩) ∧
      (∀ topic_in res, mqtt_op_unsubscribe H self topic_in res =
        ⟨self, .raised ⟨.OSError, "Mqtt client destroyed"⟩, []⟩) ∧
      (∀ topic_in msg_in opt res, mqtt_op_publish H self topic_in msg_in opt res =
        ⟨self, .raised ⟨.OSError, "Mqtt client destroyed"⟩, []⟩) ∧
      (∀ res, mqtt_op_start H self res = ⟨self, .returned .none, []⟩) ∧
      (∀ bits fuel, mqtt_op_stop H self bits fuel = some ⟨self, .returned .none, []⟩) ∧
      mqtt_op_free self = ⟨self, .returned (.bool false), []⟩ ∧
      mqtt_op_status H self = [.int (-1), .str (lit "Destroyed")] := by
  refine ⟨?_, ?_, ?_, ?_, ?_, ?_, ?_, ?_⟩
  · intro args; simp [mqtt_op_config, h]
  · intro topic_in opt res; simp [mqtt_op_subscribe, checkClient, h]
  · intro topic_in res; simp [mqtt_op_unsubscribe, checkClient, h]
  · intro topic_in msg_in opt res; simp [mqtt_op_publish, checkClient, h]
  · intro res; simp [mqtt_op_start, h]
  · intro bits fuel; simp [mqtt_op_stop, h]
  · simp [mqtt_op_free, h]
  · simp [mqtt_op_status, h]

/-- C8, instance of the amended claim: the operations on `handle0` after `free`. -/
theorem destroyed_handle_operations_witness :
    (∀ args, mqtt_op_config espmqtt_h handle_destroyed args =
        ⟨handle_destroyed, .raised ⟨.ValueError, "Destroyed"⟩, []⟩) ∧
      (∀ topic_in opt res, mqtt_op_subscribe espmqtt_h handle_destroyed topic_in opt res =
        ⟨handle_destroyed, .raised ⟨.OSError, "Mqtt client destroyed"⟩, []⟩) ∧
      (∀ topic_in res, mqtt_op_unsubscribe espmqtt_h handle_destroyed topic_in res =
        ⟨handle_destroyed, .raised ⟨.OSError, "Mqtt client destroyed"⟩, []⟩) ∧
      (∀ topic_in msg_in opt res,
        mqtt_op_publish espmqtt_h handle_destroyed topic_in msg_in opt res =
          ⟨handle_destroyed, .raised ⟨.OSError, "Mqtt client destroyed"⟩, []⟩) ∧
      (∀ res, mqtt_op_start espmqtt_h handle_destroyed res =
        ⟨handle_destroyed, .returned .none, []⟩) ∧
      (∀ bits fuel, mqtt_op_stop espmqtt_h handle_destroyed bits fuel =
        some ⟨handle_destroyed, .returned .none, []⟩) ∧
      mqtt_op_free handle_destroyed = ⟨handle_destroyed, .returned (.bool false), []⟩ ∧
      mqtt_op_status espmqtt_h handle_destroyed = [.int (-1), .str (lit "Destroyed")] :=
  destroyed_handle_operations espmqtt_h handle_destroyed rfl

/-- C8 fails as stated: on the destroyed handle, start and stop raise nothing and
return `None`. -/
theorem destroyed_handle_operations_counterexample :
    handle_destroyed.client = none ∧
      mqtt_op_start espmqtt_h handle_destroyed 0 = ⟨handle_destroyed, .returned .none, []⟩ ∧
      mqtt_op_stop espmqtt_h handle_destroyed (fun _ => 0) 1 =
        some ⟨handle_destroyed, .returned .none, []⟩ := by
  decide

/-! ## C9: operations while not connected -/

/-- C9: for every handle that is not destroyed and whose client state is not
`Connected`, subscribe, unsubscribe and publish return false for every argument
list (whatever the QoS value), raise nothing, call nothing and leave the handle
as it was. -/
theorem not_connected_returns_false (H : mqtt_client_h) (self : mqtt_obj_t)
    (client : esp_mqtt_client) (h : self.client = some client)
    (hs : client.state ≠ H.MQTT_STATE_CONNECTED) :
    (∀ topic_in opt res, mqtt_op_subscribe H self topic_in opt res =
        ⟨self, .returned (.bool false), []⟩) ∧
      (∀ topic_in res, mqtt_op_unsubscribe H self topic_in res =
        ⟨self, .returned (.bool false), []⟩) ∧
      (∀ topic_in msg_in opt res, mqtt_op_publish H self topic_in msg_in opt res =
        ⟨self, .returned (.bool false), []⟩) := by
  refine ⟨?_, ?_, ?_⟩
  · intro topic_in opt res; simp [mqtt_op_subscribe, checkClient, h, hs]
  · intro topic_in res; simp [mqtt_op_unsubscribe, checkClient, h, hs]
  · intro topic_in msg_in opt res; simp [mqtt_op_publish, checkClient, h, hs]

/-- C9, instance: on the handle `handle0`, whose client is in state `Initialized`,
`subscribe("x/y", 7)` returns false. -/
theorem not_connected_returns_false_witness :
    mqtt_op_subscribe espmqtt_h handle0 (.str (lit "x/y")) [.int 7] 0 =
      ⟨handle0, .returned (.bool false), []⟩ :=
  (not_connected_returns_false espmqtt_h handle0 client0 rfl (by decide)).1
    (.str (lit "x/y")) [.int 7] 0

/-! ## C10: config on a connected handle -/

/-- C10 (amended): for every handle whose client state is `Connected` (or above
it) at the time of the call, every config call, whatever host, port, user,
password, client ID, keepalive, clean-session and last-will arguments it passes,
returns `None` without raising and leaves the whole client record unchanged,
while each of the six callback references follows its argument: a function or
method is stored, `False` clears it, another value leaves it. -/
theorem config_gated_when_connected (H : mqtt_client_h) (self : mqtt_obj_t)
    (client : esp_mqtt_client) (args : config_args) (h : self.client = some client)
    (hs : H.MQTT_STATE_CONNECTED ≤ client.state) :
    (mqtt_op_config H self args).ret = .returned .none ∧
      (mqtt_op_config H self args).self.client = some client ∧
      cb_follows self.mpy_data_cb args.data_cb (mqtt_op_config H self args).self.mpy_data_cb ∧
      cb_follows self.mpy_connected_cb args.connected_cb
        (mqtt_op_config H self args).self.mpy_connected_cb ∧
      cb_follows self.mpy_disconnected_cb args.disconnected_cb
        (mqtt_op_config H self args).self.mpy_disconnected_cb ∧
      cb_follows self.mpy_subscribed_cb args.subscribed_cb
        (mqtt_op_config H self args).self.mpy_subscribed_cb ∧
      cb_follows self.mpy_unsubscribed_cb args.unsubscribed_cb
        (mqtt_op_config H self args).self.mpy_unsubscribed_cb ∧
      cb_follows self.mpy_published_cb args.published_cb
        (mqtt_op_config H self args).self.mpy_published_cb := by
  have hn : ¬ client.state < H.MQTT_STATE_CONNECTED := by omega
  have hcb : ∀ (old : Option mp_obj_t) (arg : mp_obj_t),
      cb_follows old arg (cfg_callback old arg) := by
    intro old arg
    refine ⟨?_, ?_, ?_⟩
    · intro hf
      rcases hf with hf | hf <;> simp [cfg_callback, hf]
    · intro hf
      subst hf
      simp [cfg_callback, mp_obj_is_fun, mp_obj_is_meth]
    · intro h1 h2 h3
      simp [cfg_callback, h1, h2, h3]
  have e : mqtt_op_config H self args = ⟨cfg_callbacks self args, .returned .none, []⟩ := by
    simp [mqtt_op_config, h, hn]
  rw [e]
  exact ⟨rfl, h, hcb _ _, hcb _ _, hcb _ _, hcb _ _, hcb _ _, hcb _ _⟩

/-- C10, instance of the amended claim: on a connected handle, a config call that
names every connection-affecting argument (with a server string longer than any
host capacity), a new data callback and `False` for the connected callback returns
`None`, keeps the client record, stores the data callback and clears the
connected callback. -/
theorem config_gated_when_connected_witness :
    ((mqtt_op_config espmqtt_h handle_connected sample_config).ret = .returned .none ∧
      (mqtt_op_config espmqtt_h handle_connected sample_config).self.client =
        some { client0 with state := 2 }) ∧
      (mqtt_op_config espmqtt_h handle_connected sample_config).self.mpy_data_cb =
        some (.func 9) ∧
      (mqtt_op_config espmqtt_h handle_connected sample_config).self.mpy_connected_cb = none :=
  have w := config_gated_when_connected espmqtt_h handle_connected { client0 with state := 2 }
    sample_config rfl (by decide)
  ⟨⟨w.1, w.2.1⟩, w.2.2.1.1 (Or.inl rfl), w.2.2.2.1.2.1 rfl⟩

/-- C10 fails as stated: the handle `handle_connected` has reached the state
`Connected`; once its client has fallen back to the state below `Initialized` (as
after a stop, the state from which start restarts it), a config call that gives a
server, a port and a password rewrites the URI, the port and the password of the
client. -/
theorem config_gated_when_connected_counterexample :
    handle_connected.client.map (fun c => c.state) = some espmqtt_h.MQTT_STATE_CONNECTED ∧
      handle_connected.client.map
        (fun c => (c.config.uri, c.config.port, c.connect_info.password)) =
        some (lit "mqtt://broker", 1883, []) ∧
      client_stopped.state < espmqtt_h.MQTT_STATE_INIT ∧
      (run espmqtt_h handle_connected
        [.client_task client_stopped, .config config_other]).client.map
        (fun c => (c.config.uri, c.config.port, c.connect_info.password)) =
        some (lit "other", 8883, lit "p") ∧
      (mqtt_op_config espmqtt_h (step espmqtt_h handle_connected (.client_task client_stopped))
        config_other).ret = .returned .none := by
  decide

/-! ## C11: the wait loop of stop -/

theorem stop_wait_never (bits : Nat → Nat) (hb : ∀ i, bits i % 2 = 0) :
    ∀ fuel i, stop_wait bits 0 fuel i = none := by
  intro fuel
  induction fuel with
  | zero => intro i; rfl
  | succ n ih =>
    intro i
    simp only [stop_wait, hb i, and_self, Nat.zero_lt_succ, Nat.lt_add_one, if_true]
    simpa using ih (i + 1)

theorem stop_wait_until (bits : Nat → Nat) (k : Nat) (hk : bits k % 2 = 1) :
    ∀ fuel i, i ≤ k → (∀ j, i ≤ j → j < k → bits j % 2 = 0) → k - i < fuel →
      stop_wait bits 0 fuel i = some k := by
  intro fuel
  induction fuel with
  | zero => intro i _ _ hf; omega
  | succ n ih =>
    intro i hik hev hf
    by_cases hi : i = k
    · subst hi
      simp [stop_wait, hk]
    · have hlt : i < k := by omega
      have h0 : bits i % 2 = 0 := hev i (Nat.le_refl i) hlt
      simp only [stop_wait, h0, and_self, if_true]
      have := ih (i + 1) (by omega) (fun j hj hjk => hev j (by omega) hjk) (by omega)
      simpa using this

/-- C11 (the code does not bound the wait): for every handle that is not destroyed
and whose client state is at or above `Initialized`, when the stopped bit is never
set, `mqtt_op_stop` does not return within any number of polls; and when the bit
is first set at the poll with index `k`, it returns after exactly `k` delays,
however large `k` is: the counter `status` compared with 20 is never
incremented. -/
theorem stop_not_bounded (H : mqtt_client_h) (self : mqtt_obj_t) (client : esp_mqtt_client)
    (bits : Nat → Nat) (h : self.client = some client)
    (hs : H.MQTT_STATE_INIT ≤ client.state) :
    ((∀ i, bits i % 2 = 0) → ∀ fuel, mqtt_op_stop H self bits fuel = none) ∧
      (∀ k, (∀ j, j < k → bits j % 2 = 0) → bits k % 2 = 1 → ∀ fuel, k < fuel →
        mqtt_op_stop H self bits fuel =
          some ⟨self, .returned .none,
            ext_call.esp_mqtt_client_stop :: List.replicate k ext_call.vTaskDelay⟩) := by
  have hge : client.state ≥ H.MQTT_STATE_INIT := hs
  refine ⟨?_, ?_⟩
  · intro hb fuel
    simp [mqtt_op_stop, h, hge, stop_wait_never bits hb]
  · intro k hev hk fuel hf
    have hw := stop_wait_until bits k hk fuel 0 (Nat.zero_le k) (fun j _ hjk => hev j hjk)
      (by omega)
    simp [mqtt_op_stop, h, hge, hw]

/-- C11, instance: on the handle `handle0` (state `Initialized`) with the stopped
bit never set, stop has not returned after 1000 polls; with the bit set from poll
25 on, it returns after 25 delays. -/
theorem stop_not_bounded_witness :
    mqtt_op_stop espmqtt_h handle0 bits_never 1000 = none ∧
      mqtt_op_stop espmqtt_h handle0 bits_late 1000 =
        some ⟨handle0, .returned .none,
          ext_call.esp_mqtt_client_stop :: List.replicate 25 ext_call.vTaskDelay⟩ :=
  have w := stop_not_bounded espmqtt_h handle0 client0 bits_never rfl (by decide)
  have v := stop_not_bounded espmqtt_h handle0 client0 bits_late rfl (by decide)
  ⟨w.1 (fun _ => rfl) 1000,
   v.2 25 (fun j hj => by simp [bits_late, hj]) (by decide) 1000 (by decide)⟩

/-! ## C12: start -/

/-- C12 (amended): for every handle that is not destroyed, start calls the external
client's start exactly when the client state is below `Initialized` and
clean-session is disabled, and then raises only when that call returns non-zero;
with the state below `Initialized` and clean-session enabled it raises without
calling; with the state at or above `Initialized` it calls nothing, raises nothing
and returns `None`, whatever clean-session is. -/
theorem start_cases (H : mqtt_client_h) (self : mqtt_obj_t) (client : esp_mqtt_client)
    (res : Int) (h : self.client = some client) :
    (client.state < H.MQTT_STATE_INIT → client.connect_info.clean_session = false →
        mqtt_op_start H self res =
          ⟨self, if res = 0 then .returned .none
                 else .raised ⟨.TypeError, "Error starting client"⟩,
           [ext_call.esp_mqtt_client_start]⟩) ∧
      (client.state < H.MQTT_STATE_INIT → client.connect_info.clean_session = true →
        mqtt_op_start H self res =
          ⟨self, .raised ⟨.TypeError,
            "Client not in persistent session, free and create again"⟩, []⟩) ∧
      (H.MQTT_STATE_INIT ≤ client.state →
        mqtt_op_start H self res = ⟨self, .returned .none, []⟩) := by
  refine ⟨?_, ?_, ?_⟩
  · intro hlt hc
    by_cases hr : res = 0 <;> simp [mqtt_op_start, h, hlt, hc, hr]
  · intro hlt hc
    simp [mqtt_op_start, h, hlt, hc]
  · intro hge
    have hn : ¬ client.state < H.MQTT_STATE_INIT := by omega
    simp [mqtt_op_start, h, hn]

/-- C12, instance of the amended claim: start on a stopped handle with clean-session
disabled calls the external start and returns `None`; with clean-session enabled
it raises. -/
theorem start_cases_witness :
    mqtt_op_start espmqtt_h handle_stopped 0 =
        ⟨handle_stopped, .returned .none, [ext_call.esp_mqtt_client_start]⟩ ∧
      mqtt_op_start espmqtt_h handle_stopped_clean 0 =
        ⟨handle_stopped_clean, .raised ⟨.TypeError,
          "Client not in persistent session, free and create again"⟩, []⟩ :=
  ⟨(start_cases espmqtt_h handle_stopped client_stopped 0 rfl).1 (by decide) rfl,
   (start_cases espmqtt_h handle_stopped_clean
      { client_stopped with connect_info := connect_info_clean } 0 rfl).2.1 (by decide) rfl⟩

/-- C12 fails as stated: on the handle `handle0`, whose client state is
`Initialized`, start raises nothing: it returns `None` without calling the
external client, with clean-session disabled and with clean-session enabled. -/
theorem start_cases_counterexample :
    handle0.client = some client0 ∧ espmqtt_h.MQTT_STATE_INIT ≤ client0.state ∧
      mqtt_op_start espmqtt_h handle0 0 = ⟨handle0, .returned .none, []⟩ ∧
      mqtt_op_start espmqtt_h handle_init_clean 0 =
        ⟨handle_init_clean, .returned .none, []⟩ := by
  decide

/-! ## C13: construction with a server string that does not parse -/

theorem new_port_ok (args : new_args) (cfg : esp_mqtt_client_config_t) :
    ∃ c, new_port args cfg = .ok c ∧ c.host = cfg.host ∧ c.uri = cfg.uri := by
  unfold new_port
  split <;> exact ⟨_, rfl, rfl, rfl⟩

theorem new_user_ok (H : mqtt_client_h) (args : new_args) (cfg : esp_mqtt_client_config_t)
    (h : str_within args.user H.MQTT_MAX_USERNAME_LEN) :
    ∃ c, new_user H args cfg = .ok c ∧ c.host = cfg.host ∧ c.uri = cfg.uri := by
  unfold new_user
  split
  · rename_i tstr heq
    have hlt := h tstr heq
    have hn : ¬ strlen tstr ≥ H.MQTT_MAX_USERNAME_LEN := by omega
    simp only [hn, if_false]
    exact ⟨_, rfl, rfl, rfl⟩
  · exact ⟨_, rfl, rfl, rfl⟩

theorem new_pass_ok (H : mqtt_client_h) (args : new_args) (cfg : esp_mqtt_client_config_t)
    (h : str_within args.password H.MQTT_MAX_PASSWORD_LEN) :
    ∃ c, new_pass H args cfg = .ok c ∧ c.host = cfg.host ∧ c.uri = cfg.uri := by
  unfold new_pass
  split
  · rename_i tstr heq
    have hlt := h tstr heq
    have hn : ¬ strlen tstr ≥ H.MQTT_MAX_PASSWORD_LEN := by omega
    simp only [hn, if_false]
    exact ⟨_, rfl, rfl, rfl⟩
  · exact ⟨_, rfl, rfl, rfl⟩

theorem new_clientid_ok (H : mqtt_client_h) (env : new_env) (args : new_args)
    (cfg : esp_mqtt_client_config_t) (h : str_within args.clientid H.MQTT_MAX_CLIENT_LEN) :
    ∃ c, new_clientid H env args cfg = .ok c ∧ c.host = cfg.host ∧ c.uri = cfg.uri := by
  unfold new_clientid
  split
  · rename_i tstr heq
    have hlt := h tstr heq
    have hn : ¬ strlen tstr ≥ H.MQTT_MAX_CLIENT_LEN := by omega
    simp only [hn, if_false]
    exact ⟨_, rfl, rfl, rfl⟩
  · exact ⟨_, rfl, rfl, rfl⟩

theorem new_flags_ok (args : new_args) (cfg : esp_mqtt_client_config_t) :
    ∃ c, new_flags args cfg = .ok c ∧ c.host = cfg.host ∧ c.uri = cfg.uri :=
  ⟨_, rfl, rfl, rfl⟩

theorem new_lwt_ok (H : mqtt_client_h) (args : new_args) (cfg : esp_mqtt_client_config_t)
    (ht : str_within args.lwt_topic H.MQTT_MAX_LWT_TOPIC)
    (hm : str_within args.lwt_msg H.MQTT_MAX_LWT_MSG) :
    ∃ c, new_lwt H args cfg = .ok c ∧ c.host = cfg.host ∧ c.uri = cfg.uri := by
  unfold new_lwt
  split
  · rename_i tstr heq
    have hlt := ht tstr heq
    have hn : ¬ strlen tstr ≥ H.MQTT_MAX_LWT_TOPIC := by omega
    simp only [hn, if_false]
    split
    · rename_i e he
      split at he
      · rename_i mstr hmeq
        have hlm := hm mstr hmeq
        have hnm : ¬ strlen mstr ≥ H.MQTT_MAX_LWT_MSG := by omega
        simp [hnm] at he
      · simp at he
    · rename_i c he
      split at he
      · rename_i mstr hmeq
        have hlm := hm mstr hmeq
        have hnm : ¬ strlen mstr ≥ H.MQTT_MAX_LWT_MSG := by omega
        simp only [hnm, if_false, Except.ok.injEq] at he
        subst he
        exact ⟨_, rfl, rfl, rfl⟩
      · simp only [Except.ok.injEq] at he
        subst he
        exact ⟨_, rfl, rfl, rfl⟩
  · exact ⟨_, rfl, rfl, rfl⟩

theorem new_certs_ok (env : new_env) (args : new_args) (cfg : esp_mqtt_client_config_t)
    (h : certs_load env args) :
    ∃ c, new_certs env args cfg = .ok c ∧ c.host = cfg.host ∧ c.uri = cfg.uri := by
  unfold new_certs
  split
  · rename_i cert key hc hk
    simp only [h.1 cert hc, h.2 cert key hc hk]
    exact ⟨_, rfl, rfl, rfl⟩
  · rename_i cert hc _
    simp only [h.1 cert hc]
    exact ⟨_, rfl, rfl, rfl⟩
  · exact ⟨_, rfl, rfl, rfl⟩

/-- C13 (amended): for every server string shorter than the host capacity that the
URL parser fails to parse, all other arguments being valid (a name below its
capacity, string arguments within their capacities, certificate files that load),
`mqtt_make_new` does not fail on that account: it calls `esp_mqtt_client_init`
once, with the server string stored as the host and the URI left empty; when that
call returns a client the new handle owns it, and only when that call returns
null does construction fail with a configuration error. -/
theorem make_new_unparsed_server (H : mqtt_client_h) (env : new_env) (args : new_args)
    (name server : Bytes)
    (hname : args.name = .str name) (hnlen : strlen name < MQTT_MAX_TASKNAME_LEN)
    (hserver : args.server = .str server) (hslen : strlen server < H.MQTT_MAX_HOST_LEN)
    (hparse : env.http_parser_parse_url (cstr server) ≠ 0)
    (huser : str_within args.user H.MQTT_MAX_USERNAME_LEN)
    (hpass : str_within args.password H.MQTT_MAX_PASSWORD_LEN)
    (hclient : str_within args.clientid H.MQTT_MAX_CLIENT_LEN)
    (hlwt : str_within args.lwt_topic H.MQTT_MAX_LWT_TOPIC)
    (hmsg : str_within args.lwt_msg H.MQTT_MAX_LWT_MSG)
    (hcert : certs_load env args) :
    ∃ mqtt_cfg, (mqtt_make_new H env args).inits = [mqtt_cfg] ∧
      mqtt_cfg.host = cstr server ∧ mqtt_cfg.uri = [] ∧
      (∀ client, env.esp_mqtt_client_init mqtt_cfg = some client →
        ∃ self, (mqtt_make_new H env args).ret = .created self ∧
          self.client = some client ∧ self.name = cstr name) ∧
      (env.esp_mqtt_client_init mqtt_cfg = none →
        (mqtt_make_new H env args).ret =
          .raised ⟨.ValueError, "Error initializing mqtt client"⟩) := by
  have hn : new_name args = .ok (cstr name) := by
    have hge : ¬ strlen name ≥ MQTT_MAX_TASKNAME_LEN := by omega
    simp [new_name, hname, mp_obj_str_get_str, hge]
  obtain ⟨c1, h1, a1, b1⟩ := new_port_ok args { task_prio := env.MICROPY_TASK_PRIORITY + 1 }
  have h2 : new_server H env args c1 = .ok { c1 with host := cstr server } := by
    have hge : ¬ strlen server ≥ H.MQTT_MAX_HOST_LEN := by omega
    simp [new_server, hserver, mp_obj_str_get_str, hge, hparse]
  obtain ⟨c3, h3, a3, b3⟩ := new_user_ok H args { c1 with host := cstr server } huser
  obtain ⟨c4, h4, a4, b4⟩ := new_pass_ok H args c3 hpass
  obtain ⟨c5, h5, a5, b5⟩ := new_clientid_ok H env args c4 hclient
  obtain ⟨c6, h6, a6, b6⟩ := new_flags_ok args c5
  obtain ⟨c7, h7, a7, b7⟩ := new_lwt_ok H args c6 hlwt hmsg
  obtain ⟨c8, h8, a8, b8⟩ := new_certs_ok env args c7 hcert
  have hcfg : new_cfg H env args = .ok c8 := by
    simp only [new_cfg, bind, Except.bind, h1, h2, h3, h4, h5, h6, h7, h8]
  refine ⟨c8, ?_, ?_, ?_, ?_, ?_⟩
  · simp only [mqtt_make_new, hn, hcfg]
    cases env.esp_mqtt_client_init c8 <;> rfl
  · rw [a8, a7, a6, a5, a4, a3]
  · rw [b8, b7, b6, b5, b4, b3]
    exact b1
  · intro client hc
    simp only [mqtt_make_new, hn, hcfg, hc]
    exact ⟨_, rfl, rfl, rfl⟩
  · intro hc
    simp only [mqtt_make_new, hn, hcfg, hc]

/-- C13, instance of the amended claim: the construction of the scenario, with a
parser that rejects `"broker.example:1883"`, passes that string as the host and
returns a handle that owns the created client. -/
theorem make_new_unparsed_server_witness :
    ∃ mqtt_cfg, (mqtt_make_new espmqtt_h env_parse_fails scenario_new).inits = [mqtt_cfg] ∧
      mqtt_cfg.host = cstr (lit "broker.example:1883") ∧ mqtt_cfg.uri = [] ∧
      (∀ client, env_parse_fails.esp_mqtt_client_init mqtt_cfg = some client →
        ∃ self, (mqtt_make_new espmqtt_h env_parse_fails scenario_new).ret = .created self ∧
          self.client = some client ∧ self.name = cstr (lit "a")) ∧
      (env_parse_fails.esp_mqtt_client_init mqtt_cfg = none →
        (mqtt_make_new espmqtt_h env_parse_fails scenario_new).ret =
          .raised ⟨.ValueError, "Error initializing mqtt client"⟩) :=
  make_new_unparsed_server espmqtt_h env_parse_fails scenario_new (lit "a")
    (lit "broker.example:1883") rfl (by decide) rfl (by decide) (by decide)
    (fun s h => by simp [scenario_new] at h) (fun s h => by simp [scenario_new] at h)
    (fun s h => by simp [scenario_new] at h) (fun s h => by simp [scenario_new] at h)
    (fun s h => by simp [scenario_new] at h)
    ⟨fun c h => by simp [scenario_new] at h, fun c k h => by simp [scenario_new] at h⟩

/-- C13 fails as stated: with the server string `"broker.example:1883"`, shorter
than the host capacity and rejected by the URL parser, and every other argument
valid, `mqtt_make_new` raises nothing: it creates the client and returns the
handle that owns it. -/
theorem make_new_unparsed_server_counterexample :
    scenario_new.server = .str (lit "broker.example:1883") ∧
      strlen (lit "broker.example:1883") < espmqtt_h.MQTT_MAX_HOST_LEN ∧
      env_parse_fails.http_parser_parse_url (cstr (lit "broker.example:1883")) ≠ 0 ∧
      (mqtt_make_new espmqtt_h env_parse_fails scenario_new).ret =
        .created { handle_no_cb with client := some client0 } ∧
      (mqtt_make_new espmqtt_h env_parse_fails scenario_new).inits.length = 1 := by
  decide

/-! ## C14: the optional arguments of publish -/

theorem to_int_of_int (n : Int) (h0 : -2147483648 ≤ n) (h1 : n < 2147483648) :
    to_int n = n := by
  unfold to_int
  omega

/-- C14 (the code drops the QoS of a five-argument call): for every handle whose
client is connected, every topic and payload string and every result of the
external call, `publish(topic, payload)` calls the external publish with QoS 0
and retain 0; `publish(topic, payload, q)` with `q` in 0..2 calls it with QoS `q`
and retain 0, with `q` in the range of an `int` and outside 0..2 raises without
calling, and for any `q` of a 64-bit machine word does what it does for `q`
converted to `int`; but
`publish(topic, payload, q, r)` calls it with QoS 0 and the truth value of `r`,
whatever `q` is, and never rejects `q`. -/
theorem publish_optional_args (H : mqtt_client_h) (self : mqtt_obj_t)
    (client : esp_mqtt_client) (topic msg : Bytes) (res : Int)
    (h : self.client = some client) (hs : client.state = H.MQTT_STATE_CONNECTED) :
    (mqtt_op_publish H self (.str topic) (.str msg) [] res).calls =
        [ext_call.esp_mqtt_client_publish topic msg msg.length 0 0] ∧
      (∀ q : Int, 0 ≤ q → q ≤ 2 →
        (mqtt_op_publish H self (.str topic) (.str msg) [.int q] res).calls =
          [ext_call.esp_mqtt_client_publish topic msg msg.length q 0]) ∧
      (∀ q : Int, -2147483648 ≤ q → q < 2147483648 → q < 0 ∨ 2 < q →
        mqtt_op_publish H self (.str topic) (.str msg) [.int q] res =
          ⟨self, .raised ⟨.ValueError, "Wrong QoS value"⟩, []⟩) ∧
      (∀ q : Int, -9223372036854775808 ≤ q → q < 9223372036854775808 →
        mqtt_op_publish H self (.str topic) (.str msg) [.int q] res =
          mqtt_op_publish H self (.str topic) (.str msg) [.int (to_int q)] res) ∧
      (∀ q r : mp_obj_t,
        (mqtt_op_publish H self (.str topic) (.str msg) [q, r] res).calls =
            [ext_call.esp_mqtt_client_publish topic msg msg.length 0
              (if mp_obj_is_true r then 1 else 0)] ∧
          (mqtt_op_publish H self (.str topic) (.str msg) [q, r] res).ret =
            .returned (.bool (decide (0 ≤ res)))) := by
  refine ⟨?_, ?_, ?_, ?_, ?_⟩
  · by_cases hr : res < 0 <;>
      simp [mqtt_op_publish, checkClient, h, hs, mp_obj_str_get_str, mp_obj_str_get_data, hr]
  · intro q h0 h2
    have hi : to_int q = q := to_int_of_int q (by omega) (by omega)
    have hq : ¬ (q < 0 ∨ q > 2) := by omega
    by_cases hr : res < 0 <;>
      simp [mqtt_op_publish, checkClient, h, hs, mp_obj_str_get_str, mp_obj_str_get_data,
        mp_obj_get_int, hi, hq, hr]
  · intro q hlo hhi hq
    have hi : to_int q = q := to_int_of_int q hlo hhi
    have hq2 : q < 0 ∨ q > 2 := by omega
    simp [mqtt_op_publish, checkClient, h, hs, mp_obj_str_get_str, mp_obj_str_get_data,
      mp_obj_get_int, hi, hq2]
  · intro q _ _
    have hi : to_int (to_int q) = to_int q := by
      unfold to_int
      omega
    simp only [mqtt_op_publish, checkClient, h, hs, mp_obj_str_get_str, mp_obj_str_get_data,
      mp_obj_get_int, hi]
  · intro q r
    by_cases hr : res < 0
    · have hd : ¬ 0 ≤ res := by omega
      simp [mqtt_op_publish, checkClient, h, hs, mp_obj_str_get_str, mp_obj_str_get_data,
        hr, hd]
    · have hd : 0 ≤ res := by omega
      simp [mqtt_op_publish, checkClient, h, hs, mp_obj_str_get_str, mp_obj_str_get_data,
        hr, hd]

/-- C14, at the failing input: on a connected handle `publish("x/y", payload, 2,
True)` calls the external publish with QoS 0, and `publish("x/y", payload, 7,
True)` is not rejected. -/
theorem publish_optional_args_witness :
    (mqtt_op_publish espmqtt_h handle_connected (.str (lit "x/y")) (.str [1, 2])
        [.int 2, .bool true] 0).calls =
        [ext_call.esp_mqtt_client_publish (lit "x/y") [1, 2] 2 0 1] ∧
      (mqtt_op_publish espmqtt_h handle_connected (.str (lit "x/y")) (.str [1, 2])
        [.int 7, .bool true] 0).ret = .returned (.bool true) :=
  have w := publish_optional_args espmqtt_h handle_connected { client0 with state := 2 }
    (lit "x/y") [1, 2] 0 rfl rfl
  ⟨(w.2.2.2.2 (.int 2) (.bool true)).1, (w.2.2.2.2 (.int 7) (.bool true)).2⟩

/-- The conversion to `int` at work: `publish("x/y", payload, 4294967297)` goes out
with QoS 1. -/
theorem publish_qos_narrowed :
    (mqtt_op_publish espmqtt_h handle_connected (.str (lit "x/y")) (.str [1, 2])
        [.int 4294967297] 0).calls =
      [ext_call.esp_mqtt_client_publish (lit "x/y") [1, 2] 2 1 0] := by
  decide

/-! ## C15: subscribe on a connected handle -/

/-- C15: for every handle whose client is connected, every topic string and every
QoS `q` in 0..2, subscribe calls the external subscribe with that topic and QoS
and returns true exactly when the call returns a non-negative result, false
otherwise; in both cases `subs_flag` is 0; on success the context slot holds the
topic, on failure it is null; and on the handle after a successful subscribe a
Subscribed raw event sets `subs_flag` to 1, whether or not a subscribed callback
is set. -/
theorem subscribe_connected (H : mqtt_client_h) (self : mqtt_obj_t)
    (client : esp_mqtt_client) (topic : Bytes) (q res : Int)
    (h : self.client = some client) (hs : client.state = H.MQTT_STATE_CONNECTED)
    (h0 : 0 ≤ q) (h2 : q ≤ 2) :
    (mqtt_op_subscribe H self (.str topic) [.int q] res).calls =
        [ext_call.esp_mqtt_client_subscribe topic q] ∧
      (mqtt_op_subscribe H self (.str topic) [.int q] res).ret =
        .returned (.bool (decide (0 ≤ res))) ∧
      (mqtt_op_subscribe H self (.str topic) [.int q] res).self.subs_flag = 0 ∧
      (0 ≤ res → (mqtt_op_subscribe H self (.str topic) [.int q] res).self.client =
        some { client with config := { client.config with user_context := some topic } }) ∧
      (res < 0 → (mqtt_op_subscribe H self (.str topic) [.int q] res).self.client =
        some { client with config := { client.config with user_context := none } }) ∧
      (∀ (c : esp_mqtt_client) (event : esp_mqtt_event_t) (heap : heap_outcome),
        event.event_id = .MQTT_EVENT_SUBSCRIBED →
        (mqtt_event_handler c (mqtt_op_subscribe H self (.str topic) [.int q] res).self
          event heap).self.subs_flag = 1) := by
  have hi : to_int q = q := to_int_of_int q (by omega) (by omega)
  have hq : ¬ (q < 0 ∨ q > 2) := by omega
  refine ⟨?_, ?_, ?_, ?_, ?_, ?_⟩
  · by_cases hr : res < 0 <;>
      simp [mqtt_op_subscribe, checkClient, h, hs, mp_obj_str_get_str, mp_obj_get_int, hi, hq,
        hr]
  · by_cases hr : res < 0
    · have hd : ¬ 0 ≤ res := by omega
      simp [mqtt_op_subscribe, checkClient, h, hs, mp_obj_str_get_str, mp_obj_get_int, hi, hq,
        hr, hd]
    · have hd : 0 ≤ res := by omega
      simp [mqtt_op_subscribe, checkClient, h, hs, mp_obj_str_get_str, mp_obj_get_int, hi, hq,
        hr, hd]
  · by_cases hr : res < 0 <;>
      simp [mqtt_op_subscribe, checkClient, h, hs, mp_obj_str_get_str, mp_obj_get_int, hi, hq, hr,
        set_user_context]
  · intro hr
    have hn : ¬ res < 0 := by omega
    simp [mqtt_op_subscribe, checkClient, h, hs, mp_obj_str_get_str, mp_obj_get_int, hi, hq, hn,
      set_user_context]
  · intro hr
    simp [mqtt_op_subscribe, checkClient, h, hs, mp_obj_str_get_str, mp_obj_get_int, hi, hq, hr,
      set_user_context]
  · intro c event heap hid
    simp [mqtt_event_handler, hid]

/-- C15, instance: the scenario `subscribe("x/y", 1)` on a connected handle, with
the external call returning 0. -/
theorem subscribe_connected_witness :
    (mqtt_op_subscribe espmqtt_h handle_connected (.str (lit "x/y")) [.int 1] 0).ret =
        .returned (.bool true) ∧
      (mqtt_event_handler client0
        (mqtt_op_subscribe espmqtt_h handle_connected (.str (lit "x/y")) [.int 1] 0).self
        (plain_event .MQTT_EVENT_SUBSCRIBED) heap_ok).self.subs_flag = 1 :=
  have w := subscribe_connected espmqtt_h handle_connected { client0 with state := 2 }
    (lit "x/y") 1 0 rfl rfl (by decide) (by decide)
  ⟨w.2.1, w.2.2.2.2.2 client0 (plain_event .MQTT_EVENT_SUBSCRIBED) heap_ok rfl⟩

/-! ## C16: writes stay inside the buffers -/

theorem mem_memcpy_writes (b b2 : buf_id) (off n i : Nat) :
    (b2, i) ∈ memcpy_writes b off n ↔ b2 = b ∧ off ≤ i ∧ i < off + n := by
  simp only [memcpy_writes, List.mem_map, List.mem_range, Prod.mk.injEq]
  constructor
  · rintro ⟨k, hk, rfl, rfl⟩
    exact ⟨rfl, by omega, by omega⟩
  · rintro ⟨rfl, h1, h2⟩
    exact ⟨i - off, by omega, rfl, by omega⟩

theorem write_within_msg (msg_size topic_size i : Nat) (h : i < msg_size) :
    write_within msg_size topic_size (buf_id.msgbuf, i) :=
  ⟨fun _ => h, fun hb => by simp at hb⟩

theorem write_within_topic (msg_size topic_size i : Nat) (h : i < topic_size) :
    write_within msg_size topic_size (buf_id.topicbuf, i) :=
  ⟨fun hb => by simp at hb, fun _ => h⟩

/-- The writes of the first chunk of a message that needs more chunks. -/
theorem data_cb_first_writes (self : mqtt_obj_t) (event : esp_mqtt_event_t)
    (heap : heap_outcome) (hoff : event.current_data_offset = 0)
    (hlt : event.data.length < event.total_data_len) :
    ∀ w ∈ (data_cb self event heap).writes,
      write_within (event.total_data_len + 2) (event.topic.length + 1) w := by
  intro w hw
  obtain ⟨b, i⟩ := w
  unfold data_cb at hw
  cases hcb : self.mpy_data_cb with
  | none => simp [hcb] at hw
  | some cb =>
    simp only [hcb, hoff, if_true, hlt] at hw
    cases ht : heap.topicbuf with
    | none => simp [ht, pvPortMalloc] at hw
    | some jt =>
      cases hm : heap.msgbuf with
      | none =>
        simp only [ht, hm, pvPortMalloc, Option.map_some', Option.map_none',
          List.mem_append, List.mem_singleton, Prod.mk.injEq, mem_memcpy_writes] at hw
        rcases hw with ⟨rfl, _, h3⟩ | ⟨rfl, rfl⟩
        · exact write_within_topic _ _ _ (by omega)
        · exact write_within_topic _ _ _ (by omega)
      | some jm =>
        simp only [ht, hm, pvPortMalloc, Option.map_some', List.mem_append,
          List.mem_singleton, Prod.mk.injEq, mem_memcpy_writes] at hw
        rcases hw with (⟨rfl, _, h3⟩ | ⟨rfl, rfl⟩) | (⟨rfl, _, h3⟩ | ⟨rfl, rfl⟩)
        · exact write_within_topic _ _ _ (by omega)
        · exact write_within_topic _ _ _ (by omega)
        · exact write_within_msg _ _ _ (by omega)
        · exact write_within_msg _ _ _ (by omega)

/-- The writes of a continuation chunk that ends at or before `total`. -/
theorem data_cb_continuation_writes (self : mqtt_obj_t) (event : esp_mqtt_event_t)
    (heap : heap_outcome) (total topic_size : Nat) (hoff : 0 < event.current_data_offset)
    (hle : event.current_data_offset + event.data.length ≤ total) :
    ∀ w ∈ (data_cb self event heap).writes, write_within (total + 2) topic_size w := by
  intro w hw
  obtain ⟨b, i⟩ := w
  have h0 : event.current_data_offset ≠ 0 := by omega
  unfold data_cb at hw
  cases hcb : self.mpy_data_cb with
  | none => simp [hcb] at hw
  | some cb =>
    simp only [hcb, h0, if_false] at hw
    split at hw
    · split at hw <;>
      · simp only [List.mem_append, List.mem_singleton, Prod.mk.injEq,
          mem_memcpy_writes] at hw
        rcases hw with ⟨rfl, _, h3⟩ | ⟨rfl, rfl⟩
        · exact write_within_msg _ _ _ (by omega)
        · exact write_within_msg _ _ _ (by omega)
    · simp at hw

/-- The blocks allocated by the first chunk of a message that needs more chunks. -/
theorem data_cb_first_sizes (self : mqtt_obj_t) (event : esp_mqtt_event_t)
    (heap : heap_outcome) (cb : mp_obj_t) (hcb : self.mpy_data_cb = some cb)
    (hoff : event.current_data_offset = 0)
    (hlt : event.data.length < event.total_data_len) (hok : allocs_ok heap) :
    (∃ tb mb, (data_cb self event heap).self.topicbuf = some tb ∧
        (data_cb self event heap).self.msgbuf = some mb) ∧
      buffer_sizes (data_cb self event heap).self (event.total_data_len + 2)
        (event.topic.length + 1) := by
  obtain ⟨ht, hm⟩ := hok
  obtain ⟨jt, hjt⟩ := Option.isSome_iff_exists.mp ht
  obtain ⟨jm, hjm⟩ := Option.isSome_iff_exists.mp hm
  have e : (data_cb self event heap).self =
      { self with
        topicbuf := some ((memcpy ((List.range (event.topic.length + 1)).map jt) 0
          event.topic).set event.topic.length 0),
        msgbuf := some ((memcpy ((List.range (event.total_data_len + 1 + 1)).map jm) 0
          event.data).set event.data.length 0) } := by
    simp [data_cb, hcb, hoff, hlt, pvPortMalloc, hjt, hjm]
  rw [e]
  refine ⟨⟨_, _, rfl, rfl⟩, ?_, ?_⟩
  · intro mb hmb
    simp only [Option.some.injEq] at hmb
    subst hmb
    simp [length_memcpy]
  · intro tb htb
    simp only [Option.some.injEq] at htb
    subst htb
    simp [length_memcpy]

/-- A continuation chunk keeps the sizes of the blocks that remain allocated. -/
theorem data_cb_continuation_sizes (self : mqtt_obj_t) (event : esp_mqtt_event_t)
    (heap : heap_outcome) (msg_size topic_size : Nat)
    (hoff : 0 < event.current_data_offset) (h : buffer_sizes self msg_size topic_size) :
    buffer_sizes (data_cb self event heap).self msg_size topic_size := by
  have h0 : event.current_data_offset ≠ 0 := by omega
  unfold data_cb
  cases hcb : self.mpy_data_cb with
  | none => exact h
  | some cb =>
    simp only [h0, if_false]
    split
    · rename_i tb mb htb hmb
      split
      · exact ⟨fun _ hx => by simp at hx, fun _ hx => by simp at hx⟩
      · refine ⟨?_, ?_⟩
        · intro mb2 hx
          simp only [Option.some.injEq] at hx
          subst hx
          rw [List.length_set, length_memcpy]
          exact h.1 mb hmb
        · intro tb2 hx
          exact h.2 tb2 hx
    · exact ⟨fun _ hx => by simp at hx, fun _ hx => by simp at hx⟩

theorem run_continuation_writes (total topic_size : Nat)
    (later : List (esp_mqtt_event_t × heap_outcome))
    (hlater : ∀ x ∈ later, 0 < x.1.current_data_offset ∧
      x.1.current_data_offset + x.1.data.length ≤ total) :
    ∀ (self : mqtt_obj_t), ∀ w ∈ run_data_cb_writes self later,
      write_within (total + 2) topic_size w := by
  induction later with
  | nil => intro self w hw; simp [run_data_cb_writes] at hw
  | cons x rest ih =>
    intro self w hw
    obtain ⟨event, heap⟩ := x
    have hx := hlater (event, heap) (List.mem_cons_self _ _)
    simp only [run_data_cb_writes, List.mem_append] at hw
    rcases hw with hw | hw
    · exact data_cb_continuation_writes self event heap total topic_size hx.1 hx.2 w hw
    · exact ih (fun y hy => hlater y (List.mem_cons_of_mem _ hy)) _ w hw

theorem run_continuation_sizes (msg_size topic_size : Nat)
    (later : List (esp_mqtt_event_t × heap_outcome))
    (hlater : ∀ x ∈ later, 0 < x.1.current_data_offset) :
    ∀ (self : mqtt_obj_t) (n : Nat), buffer_sizes self msg_size topic_size →
      buffer_sizes (run_data_cb self (later.take n)).1 msg_size topic_size := by
  induction later with
  | nil => intro self n h; simpa [run_data_cb] using h
  | cons x rest ih =>
    intro self n h
    obtain ⟨event, heap⟩ := x
    cases n with
    | zero => simpa [run_data_cb] using h
    | succ n =>
      simp only [List.take_succ_cons, run_data_cb]
      exact ih (fun y hy => hlater y (List.mem_cons_of_mem _ hy)) _ n
        (data_cb_continuation_sizes self event heap msg_size topic_size
          (hlater (event, heap) (List.mem_cons_self _ _)) h)

/-- C16: for every offset-0 data event `first` with chunk length below its total
length `T`, both allocations succeeding, and every sequence of later continuation
events with offset above 0 and offset + chunk length at most `T`, every index
`data_cb` writes in the payload buffer is below `T + 2` and every index it writes
in the topic buffer is below `topic_len + 1`; and when the data callback is set,
so that the first event starts a reassembly, the first event allocates both
buffers and these numbers are the sizes of the blocks the handle holds after the
first event and after every later one. -/
theorem reassembly_writes_in_bounds (self : mqtt_obj_t)
    (first : esp_mqtt_event_t) (heap : heap_outcome)
    (later : List (esp_mqtt_event_t × heap_outcome))
    (hoff : first.current_data_offset = 0)
    (hlt : first.data.length < first.total_data_len) (hok : allocs_ok heap)
    (hlater : ∀ x ∈ later, 0 < x.1.current_data_offset ∧
      x.1.current_data_offset + x.1.data.length ≤ first.total_data_len) :
    (∀ w ∈ run_data_cb_writes self ((first, heap) :: later),
        write_within (first.total_data_len + 2) (first.topic.length + 1) w) ∧
      (∀ cb, self.mpy_data_cb = some cb →
        (∃ tb mb, (data_cb self first heap).self.topicbuf = some tb ∧
          (data_cb self first heap).self.msgbuf = some mb) ∧
        (∀ n, buffer_sizes (run_data_cb (data_cb self first heap).self (later.take n)).1
          (first.total_data_len + 2) (first.topic.length + 1))) := by
  refine ⟨?_, ?_⟩
  · intro w hw
    simp only [run_data_cb_writes, List.mem_append] at hw
    rcases hw with hw | hw
    · exact data_cb_first_writes self first heap hoff hlt w hw
    · exact run_continuation_writes first.total_data_len (first.topic.length + 1) later
        hlater _ w hw
  · intro cb hcb
    obtain ⟨halloc, hsize⟩ := data_cb_first_sizes self first heap cb hcb hoff hlt hok
    exact ⟨halloc, fun n =>
      run_continuation_sizes _ _ later (fun x hx => (hlater x hx).1) _ n hsize⟩

/-- C16, instance: the three chunks of the scenario (10 bytes, topic `"t"`) write
below index 12 in the payload buffer and below index 2 in the topic buffer; they
make 15 writes (2 in the topic buffer, then 5, 5 and 3 in the payload buffer). -/
theorem reassembly_writes_in_bounds_witness :
    (∀ w ∈ run_data_cb_writes handle0
        ((scenario_first.1, scenario_first.2) :: scenario_mid ++ [scenario_last]),
      write_within (10 + 2) (1 + 1) w) ∧
      (run_data_cb_writes handle0
        ((scenario_first.1, scenario_first.2) :: scenario_mid ++ [scenario_last])).length =
        15 :=
  ⟨(reassembly_writes_in_bounds handle0 scenario_first.1 scenario_first.2
      (scenario_mid ++ [scenario_last]) rfl (by decide) (by decide) (by decide)).1,
   by decide⟩

/-! ## C17: data events while the data callback is unset -/

/-- C17: for every handle whose data callback reference is null and every data
event (any offset, also offset 0), `data_cb` - called directly or through
`mqtt_event_handler` - returns the handle as it was, so the topic buffer and the
payload buffer are exactly as before, schedules nothing and writes nothing. -/
theorem data_cb_inert_without_callback (self : mqtt_obj_t) (event : esp_mqtt_event_t)
    (heap : heap_outcome) (client : esp_mqtt_client) (h : self.mpy_data_cb = none) :
    data_cb self event heap = ⟨self, [], []⟩ ∧
      (data_cb self event heap).self.topicbuf = self.topicbuf ∧
      (data_cb self event heap).self.msgbuf = self.msgbuf ∧
      (event.event_id = .MQTT_EVENT_DATA →
        mqtt_event_handler client self event heap = ⟨self, [], []⟩) := by
  have e : data_cb self event heap = ⟨self, [], []⟩ := by simp [data_cb, h]
  refine ⟨e, by rw [e], by rw [e], ?_⟩
  intro hid
  simp only [mqtt_event_handler, hid, e]

/-- C17, instance: the handle `handle_busy`, in the middle of a reassembly, after
a config call that clears the data callback: an offset-0 data event leaves its two
buffers as they were. -/
theorem data_cb_inert_without_callback_witness :
    data_cb handle_busy_no_cb scenario_first.1 heap_ok = ⟨handle_busy_no_cb, [], []⟩ ∧
      (data_cb handle_busy_no_cb scenario_first.1 heap_ok).self.topicbuf =
        handle_busy.topicbuf ∧
      (data_cb handle_busy_no_cb scenario_first.1 heap_ok).self.msgbuf =
        handle_busy.msgbuf :=
  have w := data_cb_inert_without_callback handle_busy_no_cb scenario_first.1 heap_ok
    client0 rfl
  ⟨w.1, w.2.1, w.2.2.1⟩

/-! ## C18, C19: the connection block of config -/

theorem cfg_uri_ok (H : mqtt_client_h) (args : config_args) (c : esp_mqtt_client)
    (h : str_within args.server H.MQTT_MAX_HOST_LEN) :
    ∃ c2, cfg_uri H args c = .ok c2 ∧ c2.connect_info = c.connect_info := by
  unfold cfg_uri
  split
  · rename_i tstr heq
    have hlt := h tstr heq
    have hn : ¬ strlen tstr ≥ H.MQTT_MAX_HOST_LEN := by omega
    simp only [hn, if_false]
    exact ⟨_, rfl, rfl⟩
  · exact ⟨_, rfl, rfl⟩

theorem cfg_port_ok (args : config_args) (c : esp_mqtt_client) :
    ∃ c2, cfg_port args c = .ok c2 ∧ c2.connect_info = c.connect_info := by
  unfold cfg_port
  split <;> exact ⟨_, rfl, rfl⟩

theorem cfg_user_ok (H : mqtt_client_h) (args : config_args) (c : esp_mqtt_client)
    (h : str_within args.user H.MQTT_MAX_USERNAME_LEN) :
    ∃ c2, cfg_user H args c = .ok c2 ∧
      c2.connect_info.client_id = c.connect_info.client_id ∧
      c2.connect_info.will_topic = c.connect_info.will_topic ∧
      c2.connect_info.will_message = c.connect_info.will_message := by
  unfold cfg_user
  split
  · rename_i tstr heq
    have hlt := h tstr heq
    have hn : ¬ strlen tstr ≥ H.MQTT_MAX_USERNAME_LEN := by omega
    simp only [hn, if_false]
    exact ⟨_, rfl, rfl, rfl, rfl⟩
  · exact ⟨_, rfl, rfl, rfl, rfl⟩

theorem cfg_pass_ok (H : mqtt_client_h) (args : config_args) (c : esp_mqtt_client)
    (h : str_within args.password H.MQTT_MAX_PASSWORD_LEN) :
    ∃ c2, cfg_pass H args c = .ok c2 ∧
      c2.connect_info.client_id = c.connect_info.client_id ∧
      c2.connect_info.will_topic = c.connect_info.will_topic ∧
      c2.connect_info.will_message = c.connect_info.will_message := by
  unfold cfg_pass
  split
  · rename_i tstr heq
    have hlt := h tstr heq
    have hn : ¬ strlen tstr ≥ H.MQTT_MAX_PASSWORD_LEN := by omega
    simp only [hn, if_false]
    exact ⟨_, rfl, rfl, rfl, rfl⟩
  · exact ⟨_, rfl, rfl, rfl, rfl⟩

theorem cfg_clientid_reset (H : mqtt_client_h) (args : config_args) (c : esp_mqtt_client)
    (h : mp_obj_is_str args.clientid = false) :
    ∃ c2, cfg_clientid H args c = .ok c2 ∧
      c2.connect_info.client_id = lit "mpy_mqtt_client" := by
  unfold cfg_clientid
  split
  · rename_i tstr heq
    simp [heq, mp_obj_is_str] at h
  · exact ⟨_, rfl, rfl⟩

theorem cfg_flags_ok (args : config_args) (c : esp_mqtt_client) :
    ∃ c2, cfg_flags args c = .ok c2 ∧
      c2.connect_info.client_id = c.connect_info.client_id ∧
      c2.connect_info.will_topic = c.connect_info.will_topic ∧
      c2.connect_info.will_message = c.connect_info.will_message := by
  unfold cfg_flags
  refine ⟨_, rfl, ?_, ?_, ?_⟩ <;> (simp only; repeat' split) <;> rfl

theorem cfg_lwt_keeps_id (H : mqtt_client_h) (args : config_args) (c : esp_mqtt_client) :
    (∀ c2, cfg_lwt H args c = .ok c2 →
        c2.connect_info.client_id = c.connect_info.client_id) ∧
      (∀ c2 e, cfg_lwt H args c = .error (c2, e) →
        c2.connect_info.client_id = c.connect_info.client_id) := by
  cases ht : args.lwt_topic with
  | str t =>
    by_cases h1 : strlen t ≥ H.MQTT_MAX_LWT_TOPIC
    · constructor
      · intro c2 h
        simp [cfg_lwt, ht, h1] at h
      · intro c2 e h
        simp only [cfg_lwt, ht, h1, if_true, Except.error.injEq, Prod.mk.injEq] at h
        rw [← h.1]
    · cases hm : args.lwt_msg with
      | str m =>
        by_cases h2 : strlen m ≥ H.MQTT_MAX_LWT_MSG
        · constructor
          · intro c2 h
            simp [cfg_lwt, ht, hm, h1, h2] at h
          · intro c2 e h
            simp only [cfg_lwt, ht, hm, h1, h2, if_true, if_false, Except.error.injEq,
              Prod.mk.injEq] at h
            rw [← h.1]
        · constructor
          · intro c2 h
            simp only [cfg_lwt, ht, hm, h1, h2, if_false, Except.ok.injEq] at h
            rw [← h]
            repeat' split
            all_goals rfl
          · intro c2 e h
            simp [cfg_lwt, ht, hm, h1, h2] at h
      | _ =>
        constructor
        · intro c2 h
          simp only [cfg_lwt, ht, hm, h1, if_false, Except.ok.injEq] at h
          rw [← h]
          repeat' split
          all_goals rfl
        · intro c2 e h
          simp [cfg_lwt, ht, hm, h1] at h
  | _ =>
    constructor
    · intro c2 h
      simp only [cfg_lwt, ht, Except.ok.injEq] at h
      rw [← h]
    · intro c2 e h
      simp [cfg_lwt, ht] at h

/-- C19 (amended): for every handle that is not destroyed and whose client state is
below `Connected`, every config call that has a connection-affecting argument
(string server, positive port, string user or password, autoreconnect or
cleansession at or above 0, positive keepalive, string lwt_topic), no string
client ID, and whose server, user and password arguments, when strings, are within
their capacities, leaves the client's `client_id` equal to `"mpy_mqtt_client"`,
whatever it was before and also when the call then raises on a last-will
argument; and for every client state a config call with no connection-affecting
argument leaves the whole client record, so also `client_id`, unchanged. -/
theorem config_resets_client_id (H : mqtt_client_h) (self : mqtt_obj_t)
    (client : esp_mqtt_client) (args : config_args) (h : self.client = some client) :
    (client.state < H.MQTT_STATE_CONNECTED → has_conn_arg args = true →
        mp_obj_is_str args.clientid = false →
        str_within args.server H.MQTT_MAX_HOST_LEN →
        str_within args.user H.MQTT_MAX_USERNAME_LEN →
        str_within args.password H.MQTT_MAX_PASSWORD_LEN →
        ∃ c, (mqtt_op_config H self args).self.client = some c ∧
          c.connect_info.client_id = lit "mpy_mqtt_client") ∧
      (has_conn_arg args = false →
        (mqtt_op_config H self args).self.client = some client ∧
          (mqtt_op_config H self args).ret = .returned .none) := by
  refine ⟨?_, ?_⟩
  · intro hs hca hid hsrv husr hpw
    obtain ⟨c1, h1, _⟩ := cfg_uri_ok H args client hsrv
    obtain ⟨c2, h2, _⟩ := cfg_port_ok args c1
    obtain ⟨c3, h3, _⟩ := cfg_user_ok H args c2 husr
    obtain ⟨c4, h4, _⟩ := cfg_pass_ok H args c3 hpw
    obtain ⟨c5, h5, i5⟩ := cfg_clientid_reset H args c4 hid
    obtain ⟨c6, h6, i6, _⟩ := cfg_flags_ok args c5
    have hk := cfg_lwt_keeps_id H args c6
    cases h7 : cfg_lwt H args c6 with
    | ok c7 =>
      have hconn : cfg_conn H args client = .ok c7 := by
        simp only [cfg_conn, bind, Except.bind, h1, h2, h3, h4, h5, h6, h7]
      refine ⟨c7, ?_, ?_⟩
      · simp [mqtt_op_config, h, hca, hs, hconn, cfg_callbacks]
      · rw [hk.1 c7 h7, i6, i5]
    | error x =>
      obtain ⟨c7, e⟩ := x
      have hconn : cfg_conn H args client = .error (c7, e) := by
        simp only [cfg_conn, bind, Except.bind, h1, h2, h3, h4, h5, h6, h7]
      refine ⟨c7, ?_, ?_⟩
      · simp [mqtt_op_config, h, hca, hs, hconn]
      · rw [hk.2 c7 e h7, i6, i5]
  · intro hca
    simp [mqtt_op_config, h, hca, cfg_callbacks]

/-- C19, instance of the amended claim: on the handle `handle0`, whose client ID is
`"id"`, `config(port=8883)` leaves the client ID `"mpy_mqtt_client"`, and a config
call that passes only a data callback leaves the client record as it was. -/
theorem config_resets_client_id_witness :
    (∃ c, (mqtt_op_config espmqtt_h handle0 config_port).self.client = some c ∧
        c.connect_info.client_id = lit "mpy_mqtt_client") ∧
      (mqtt_op_config espmqtt_h handle0 config_cb_only).self.client = some client0 :=
  ⟨(config_resets_client_id espmqtt_h handle0 client0 config_port rfl).1 (by decide) rfl rfl
      (fun s h => by simp [config_port] at h) (fun s h => by simp [config_port] at h)
      (fun s h => by simp [config_port] at h),
   ((config_resets_client_id espmqtt_h handle0 client0 config_cb_only rfl).2 rfl).1⟩

/-- C19 fails as stated: on the handle `handle0` (state `Initialized`, client ID
`"id"`) a config call that passes only a server string of 100 bytes - a
connection-affecting argument and no client ID - raises `URI too long` before the
client ID is touched, and the client ID is still `"id"`. -/
theorem config_resets_client_id_counterexample :
    handle0.client = some client0 ∧ client0.state < espmqtt_h.MQTT_STATE_CONNECTED ∧
      has_conn_arg config_long_server = true ∧
      mp_obj_is_str config_long_server.clientid = false ∧
      (mqtt_op_config espmqtt_h handle0 config_long_server).ret =
        .raised ⟨.ValueError, "URI too long"⟩ ∧
      (mqtt_op_config espmqtt_h handle0 config_long_server).self.client = some client0 ∧
      client0.connect_info.client_id = lit "id" ∧
      lit "id" ≠ lit "mpy_mqtt_client" := by
  decide

end modmqtt
